import Mathlib

/-!
Verification development for the DataGest synchronization-and-locking core.

The definitions below are a shallow embedding of the Python sources:
  - src/core/lock_manager.py       (LockManager)
  - src/workflows/base.py          (BaseWorkflow retry and cancellation helpers)
  - src/workflows/sync_workflow.py (FetchLatestWorkflow, PublishWorkflow)
  - src/workflows/import_workflow.py (ImportWorkflow)
  - src/workflows/history_workflow.py (LoadHistoryWorkflow)

Filesystem, subprocess and clock effects are modelled by explicit environment
records: each primitive interaction a function performs (an exclusive create,
a file read, an unlink, a substrate call, a cancellation poll) is given its
outcome by an environment field, in program order.  Machine floats in the
sources (TTL hours, backoff delays) are modelled with exact rationals.
-/

namespace DataGest

/-! ## String helpers

Python substring containment (`marker in lowered`) on lists of characters. -/

def listContainsSub (pat : List Char) : List Char → Bool
  | [] => pat.isPrefixOf ([] : List Char)
  | c :: rest => pat.isPrefixOf (c :: rest) || listContainsSub pat rest

/-- Python `sub in s` on strings. -/
def strContainsSub (s sub : String) : Bool :=
  listContainsSub sub.data s.data

/-- Python `s.lower()`. -/
def pyLower (s : String) : String :=
  String.mk (s.data.map Char.toLower)

/-- Python `text.split("\n")` (structural recursion, so that concrete runs
reduce in the kernel). -/
def splitLinesGo : List Char → List Char → List (List Char)
  | [], acc => [acc.reverse]
  | c :: rest, acc =>
    if c = '\n' then acc.reverse :: splitLinesGo rest []
    else splitLinesGo rest (c :: acc)

def splitLines (cs : List Char) : List (List Char) :=
  splitLinesGo cs []

/-! ## LockManager (src/core/lock_manager.py)

`LockInfo` mirrors the dataclass of the source.  The string `timestamp` field
and the wall clock are related through a `Clock` oracle: `parse` models
`datetime.fromisoformat` (`none` = `ValueError`), `now` the current time and
`formatTs` the human-readable `strftime` rendering, all measured in hours so
that the TTL comparison `age > timedelta(hours=ttl_hours)` is direct.
Staleness is monotone in time, so a single observation time is used for the
staleness checks of one call. -/

structure LockInfo where
  dataset_id : String
  username : String
  machine : String
  timestamp : String
  app_version : String
  ttl_hours : Rat
deriving DecidableEq, Repr

structure Clock where
  parse : String → Option Rat
  formatTs : String → Option String
  now : Rat

/-- `LockManager.is_stale`: unparseable timestamps are stale (fail-safe),
otherwise the age is compared against the TTL of the record. -/
def isStale (clk : Clock) (lock : LockInfo) : Bool :=
  match clk.parse lock.timestamp with
  | none => true
  | some ts => decide (clk.now - ts > lock.ttl_hours)

/-- `LockManager._same_lock`: field-by-field comparison of two records. -/
def sameLock (left right : LockInfo) : Bool :=
  decide (left.dataset_id = right.dataset_id) &&
  decide (left.username = right.username) &&
  decide (left.machine = right.machine) &&
  decide (left.timestamp = right.timestamp) &&
  decide (left.app_version = right.app_version) &&
  decide (left.ttl_hours = right.ttl_hours)

/-- `LockManager._try_remove_stale_if_unchanged`.  `current` is the outcome of
the re-read (`none` = missing or corrupt file), `unlinkOk` whether the unlink
primitive succeeds.  Returns the record actually deleted, if any; every
failure path of the source returns `False` having deleted nothing. -/
def tryRemoveStaleIfUnchanged (clk : Clock) (current : Option LockInfo)
    (unlinkOk : Bool) (expected : LockInfo) : Option LockInfo :=
  match current with
  | none => none
  | some cur =>
    if ¬ sameLock cur expected then none
    else if ¬ isStale clk cur then none
    else if unlinkOk then some cur else none

/-- One iteration of the filesystem environment seen by `LockManager.acquire`:
the outcome of the exclusive create (`createOk = false` = `FileExistsError`),
the record returned by the conflict read (`readA`), the record returned by
the re-read inside `_try_remove_stale_if_unchanged` (`readB`), and the
outcome of the unlink. -/
structure FsRound where
  createOk : Bool
  readA : Option LockInfo
  readB : Option LockInfo
  unlinkOk : Bool

structure AcquireResult where
  ok : Bool
  deleted : List LockInfo
  creates : Nat
deriving DecidableEq, Repr

/-- `LockManager.acquire`: the `for _ in range(2)` loop unrolled.  Each
iteration attempts the exclusive create; on conflict it reads the existing
record, fails unless the record is readable and stale, and otherwise runs
the compare-and-delete before the loop continues.  Falling off the loop
returns `False`.  The trace records the deleted records and the number of
create attempts. -/
def acquire (clk : Clock) (r1 r2 : FsRound) : AcquireResult :=
  if r1.createOk then ⟨true, [], 1⟩
  else
    match r1.readA with
    | none => ⟨false, [], 1⟩
    | some ex1 =>
      if ¬ isStale clk ex1 then ⟨false, [], 1⟩
      else
        match tryRemoveStaleIfUnchanged clk r1.readB r1.unlinkOk ex1 with
        | none => ⟨false, [], 1⟩
        | some d1 =>
          if r2.createOk then ⟨true, [d1], 2⟩
          else
            match r2.readA with
            | none => ⟨false, [d1], 2⟩
            | some ex2 =>
              if ¬ isStale clk ex2 then ⟨false, [d1], 2⟩
              else
                match tryRemoveStaleIfUnchanged clk r2.readB r2.unlinkOk ex2 with
                | none => ⟨false, [d1], 2⟩
                | some d2 => ⟨false, [d1, d2], 2⟩

/-- Caller identity (`self.username`, `self.machine` of the manager). -/
structure Identity where
  username : String
  machine : String

/-- Filesystem environment of one `release` / `force_unlock` call: whether the
lock file exists, the record obtained by reading it (`none` = corrupt), and
whether the unlink primitive succeeds. -/
structure ReleaseEnv where
  fileExists : Bool
  readResult : Option LockInfo
  unlinkOk : Bool

/-- `LockManager.release`.  Result: (returned boolean, whether the file was
deleted).  A missing file is a successful no-op; a readable record belonging
to someone else fails without deleting unless `adminMode`; the source skips
the identity guard entirely when the record is unreadable. -/
def release (self : Identity) (adminMode : Bool) (env : ReleaseEnv) : Bool × Bool :=
  if ¬ env.fileExists then (true, false)
  else
    let guardFails : Bool :=
      match env.readResult with
      | some existing =>
        !adminMode &&
          !(decide (existing.username = self.username) &&
            decide (existing.machine = self.machine))
      | none => false
    if guardFails then (false, false)
    else if env.unlinkOk then (true, true) else (false, false)

/-- `LockManager.force_unlock`: unconditional delete; missing file is a
successful no-op. -/
def forceUnlock (env : ReleaseEnv) : Bool × Bool :=
  if ¬ env.fileExists then (true, false)
  else if env.unlinkOk then (true, true) else (false, false)

/-! ## Network retry policy (src/workflows/base.py)

`BaseWorkflow._is_retryable_network_error` and
`BaseWorkflow._run_network_op_with_retry`. -/

/-- The fixed tuple of transient-network indicator substrings. -/
def networkErrorMarkers : List String :=
  ["network", "timed out", "timeout", "temporarily unavailable",
   "connection reset", "connection aborted", "could not resolve host",
   "unable to access", "transport endpoint", "broken pipe",
   "resource busy", "name or service not known"]

/-- `BaseWorkflow._is_retryable_network_error`: the lowercased message
contains one of the markers. -/
def isRetryableNetworkError (message : String) : Bool :=
  networkErrorMarkers.any (fun marker => strContainsSub (pyLower message) marker)

/-- Outcome of one invocation of the retried operation: success, a
`WorkflowCancelled` escaping from a progress callback inside the operation,
or an exception carrying the message `str(exc)`. -/
inductive OpOutcome where
  | ok
  | cancelledInside
  | err (msg : String)
deriving DecidableEq, Repr

/-- Environment of one loop iteration of `_run_network_op_with_retry`:
whether the cancellation flag is observed by `_check_cancelled` at the top of
the iteration, the outcome of the operation, and whether the flag is observed
by the backoff progress emission (which polls before `time.sleep`). -/
structure RetryAttempt where
  cancelledAtStart : Bool
  outcome : OpOutcome
  cancelledAtBackoff : Bool

inductive RetryResult where
  | success
  | cancelled
  | failed (msg : String)
deriving DecidableEq, Repr

/-- Observable trace of one `_run_network_op_with_retry` call: the result,
the number of times the operation ran, and the backoff delays actually slept
(in seconds, as exact rationals). -/
structure RetryTrace where
  result : RetryResult
  opCalls : Nat
  delays : List Rat
deriving DecidableEq, Repr

/-- `min(8.0, 0.75 * (2 ** (attempt - 1)))`. -/
def backoffDelay (attempt : Nat) : Rat :=
  min 8 ((3 / 4 : Rat) * 2 ^ (attempt - 1))

/-- The `for attempt in range(1, attempts + 1)` loop, over the explicit list
of attempt numbers.  `is_last` is `attempt >= attempts` as in the source.
The `[]` base case (the loop running out) is unreachable because the last
iteration always returns or raises. -/
def retryLoop (steps : Nat → RetryAttempt) (attempts : Nat) : List Nat → RetryTrace
  | [] => ⟨.failed "", 0, []⟩
  | attempt :: rest =>
    let s := steps attempt
    if s.cancelledAtStart then ⟨.cancelled, 0, []⟩
    else
      match s.outcome with
      | .ok => ⟨.success, 1, []⟩
      | .cancelledInside => ⟨.cancelled, 1, []⟩
      | .err msg =>
        if attempts ≤ attempt ∨ ¬ isRetryableNetworkError msg then ⟨.failed msg, 1, []⟩
        else if s.cancelledAtBackoff then ⟨.cancelled, 1, []⟩
        else
          let r := retryLoop steps attempts rest
          ⟨r.result, r.opCalls + 1, backoffDelay attempt :: r.delays⟩

/-- `BaseWorkflow._run_network_op_with_retry` with its `attempts =
max(retries, 1)` guard; every call site uses the default `retries = 3`. -/
def runNetworkOpWithRetry (steps : Nat → RetryAttempt) (retries : Nat) : RetryTrace :=
  retryLoop steps (max retries 1) (List.range' 1 (max retries 1))

/-! ## History image deltas (src/workflows/history_workflow.py)

`LoadHistoryWorkflow._dvc_nfiles`, `_populate_image_deltas`.  The commit
record keeps the fields the delta computation touches; the presentation-only
fields of the Python `CommitInfo` dataclass (author, date, message, ...) are
omitted.  `images_added` and `images_removed` are machine integers in the
source and are therefore `Int` here. -/

structure CommitInfo where
  hash : String
  images_added : Int
  images_removed : Int
deriving DecidableEq, Repr

/-- Decimal digits to a number, `int(...)` on a digit run. -/
def digitsToNat (digits : List Char) : Nat :=
  digits.foldl (fun n c => 10 * n + (c.toNat - 48)) 0

/-- One line matched against `^\s*nfiles:\s*(\d+)\s*$`: optional leading
whitespace, the literal `nfiles:`, optional whitespace, a nonempty digit run,
optional trailing whitespace. -/
def dvcNfilesLine (line : List Char) : Option Nat :=
  let rest := line.dropWhile Char.isWhitespace
  let pat := "nfiles:".data
  if pat.isPrefixOf rest then
    let afterPat := (rest.drop pat.length).dropWhile Char.isWhitespace
    let digits := afterPat.takeWhile Char.isDigit
    let tail := afterPat.dropWhile Char.isDigit
    if digits ≠ [] ∧ tail.all Char.isWhitespace then some (digitsToNat digits)
    else none
  else none

/-- `LoadHistoryWorkflow._dvc_nfiles`: `None` input or empty text gives
`None`; otherwise the first line matching the anchored `nfiles:` pattern
(the `re.MULTILINE` search) yields its number. -/
def dvcNfiles (text : Option String) : Option Nat :=
  match text with
  | none => none
  | some t =>
    if t = "" then none
    else (splitLines t.data).findSome? dvcNfilesLine

/-- The delta core of `_populate_image_deltas` given the parsed current and
previous markers (`previousNfiles` is `some 0` for a root commit before this
point): if both are unreadable the outputs are zero, otherwise
`delta = current - previous`, `added = max(delta, 0)`,
`removed = max(-delta, 0)` with unreadable markers coerced to `0` by
`x or 0`. -/
def imageDelta (currentNfiles previousNfiles : Option Nat) : Int × Int :=
  if currentNfiles = none ∧ previousNfiles = none then (0, 0)
  else
    let current : Int := (currentNfiles.getD 0 : Nat)
    let previous : Int := (previousNfiles.getD 0 : Nat)
    let delta := current - previous
    (max delta 0, max (-delta) 0)

/-- The per-commit body of the `_populate_image_deltas` loop.  `showFile`
models `_git_show_file` (hash, path ↦ file text, `none` = any failure) and
`firstParent` models `_first_parent` (`none` = root commit or failure);
a commit without a parent uses `0` as the previous count. -/
def populateOne (showFile : String → String → Option String)
    (firstParent : String → Option String) (dataDvcPath : String)
    (c : CommitInfo) : CommitInfo :=
  let currentNfiles := dvcNfiles (showFile c.hash dataDvcPath)
  let previousNfiles : Option Nat :=
    match firstParent c.hash with
    | some p => dvcNfiles (showFile p dataDvcPath)
    | none => some 0
  let res := imageDelta currentNfiles previousNfiles
  { c with images_added := res.1, images_removed := res.2 }

/-- `LoadHistoryWorkflow._populate_image_deltas` over the loaded commit list,
with `data_dvc = "datasets/<id>/data.dvc"`. -/
def populateImageDeltas (showFile : String → String → Option String)
    (firstParent : String → Option String) (datasetId : String)
    (commits : List CommitInfo) : List CommitInfo :=
  commits.map (populateOne showFile firstParent
    ("datasets/" ++ datasetId ++ "/data.dvc"))

/-- The underlying delta of one commit, with unreadable markers coerced to
zero exactly as the source coerces them (`x or 0`). -/
def commitDelta (showFile : String → String → Option String)
    (firstParent : String → Option String) (dataDvcPath : String)
    (c : CommitInfo) : Int :=
  let currentNfiles := dvcNfiles (showFile c.hash dataDvcPath)
  let previousNfiles : Option Nat :=
    match firstParent c.hash with
    | some p => dvcNfiles (showFile p dataDvcPath)
    | none => some 0
  ((currentNfiles.getD 0 : Nat) : Int) - ((previousNfiles.getD 0 : Nat) : Int)

/-- A concrete `git show` oracle for one dataset history: commit `C` has 12
tracked files, `P` and `R` have 10, `D` has 8, and every other commit (in
particular `X` and `Y`) has an unreadable marker. -/
def histShowFile : String → String → Option String := fun h p =>
  if p = "datasets/cam/data.dvc" then
    if h = "C" then some ("outs:\n- md5: aaa\n  nfiles: 12\n")
    else if h = "P" then some ("outs:\n- md5: bbb\n  nfiles: 10\n")
    else if h = "D" then some ("outs:\n- md5: ccc\n  nfiles: 8\n")
    else if h = "R" then some ("outs:\n- md5: ddd\n  nfiles: 10\n")
    else none
  else none

/-- A concrete first-parent oracle: `C` and `D` are children of `P`, `X` is a
child of `Y`, and `R` is a root commit. -/
def histFirstParent : String → Option String := fun h =>
  if h = "C" then some "P"
  else if h = "D" then some "P"
  else if h = "X" then some "Y"
  else none

/-! ## Workflow skeleton (src/workflows/base.py)

Exceptions are values: `WorkflowCancelled`, `GitError`, or any other
exception (`runtimeError`); `message` is `str(exc)`.  Each workflow
embedding maps an environment (the outcome of every substrate call and
cancellation poll, in program order) to a trace of the calls made, the
error-signal emissions and the finished-signal emissions.  A retried network
operation appears as a single environment outcome: by the retry model above,
`_run_network_op_with_retry` either returns, re-raises `WorkflowCancelled`,
or re-raises the (last) operation exception unchanged. -/

inductive PyExc where
  | cancelled (msg : String)
  | gitError (msg : String)
  | runtimeError (msg : String)
deriving DecidableEq, Repr

def PyExc.message : PyExc → String
  | .cancelled m => m
  | .gitError m => m
  | .runtimeError m => m

/-- The message `WorkflowCancelled` is raised with by `_check_cancelled`. -/
def cancelMsg : String := "Cancelled by user."

/-- The shared terminal handlers
`except WorkflowCancelled as exc: self._emit_finished(False, str(exc))` and
`except Exception as exc: self._emit_error(str(exc));
self._emit_finished(False, str(exc))` applied to the body outcome. -/
def applyHandlers (term : Option PyExc) (errors : List String)
    (finished : List (Bool × String)) : List String × List (Bool × String) :=
  match term with
  | none => (errors, finished)
  | some (.cancelled m) => (errors, finished ++ [(false, m)])
  | some (.gitError m) => (errors ++ [m], finished ++ [(false, m)])
  | some (.runtimeError m) => (errors ++ [m], finished ++ [(false, m)])

/-! ## PublishWorkflow (src/workflows/sync_workflow.py, lines 55-158) -/

/-- `PublishWorkflow._is_non_fast_forward_error`. -/
def isNonFastForwardError (message : String) : Bool :=
  strContainsSub (pyLower message) "non-fast-forward" ||
  strContainsSub (pyLower message) "failed to push some refs"

/-- The nothing-to-commit sentinel check on the lowercased message of a
`GitError` (line 109, and likewise in the importing workflow). -/
def isNothingToCommit (message : String) : Bool :=
  strContainsSub (pyLower message) "nothing to commit"

/-- Constructor arguments of `PublishWorkflow` that steer control flow. -/
structure PublishCfg where
  hasDataset : Bool

/-- Environment of one `PublishWorkflow.execute` run, in program order.
`c...` fields are the cancellation flag as observed by the corresponding
poll (`_emit_progress` polls before emitting, `_check_cancelled` polls);
`Option PyExc` fields are substrate-call outcomes (`none` = returned);
retried network operations carry their overall retry-block outcome. -/
structure PublishEnv where
  cPrep : Bool
  initWs : Option PyExc
  cAfterInit : Bool
  currentBranch : Except PyExc (Option String)
  cSwitch : Bool
  checkoutMain : Option PyExc
  cAfterCheckout : Bool
  cTrack : Bool
  dvcAdd : Option PyExc
  cStage : Bool
  gitAdd : Option PyExc
  cAfterAdd : Bool
  cCommit : Bool
  commit : Option PyExc
  cNoChanges : Bool
  cRebase : Bool
  pullRebase : Option PyExc
  cAfterPull : Bool
  cDvcPush : Bool
  dvcPush : Option PyExc
  cAfterDvcPush : Bool
  cGitPush : Bool
  gitPush1 : Option PyExc
  cRecover : Bool
  recoveryPull : Option PyExc
  gitPush2 : Option PyExc
  cComplete : Bool

structure PublishTrace where
  initCalls : Nat := 0
  checkoutCalls : Nat := 0
  dvcAddCalls : Nat := 0
  gitAddCalls : Nat := 0
  commitCalls : Nat := 0
  gitPullCalls : Nat := 0
  dvcPushCalls : Nat := 0
  gitPushCalls : Nat := 0
  recoveryPullCalls : Nat := 0
  reachedCommit : Bool := false
  reachedPush : Bool := false
  errors : List String := []
  finished : List (Bool × String) := []
deriving DecidableEq, Repr

def detachedMsg : String :=
  "Workspace is on a restored commit (detached HEAD). Return to latest before publishing."

/-- Outcome of the guarded git push with non-fast-forward recovery
(lines 133-150): only `GitError` is caught; a non-fast-forward message
triggers one recovery progress emission (a poll), one rebase pull and one
final push whose failure propagates. -/
structure PushStageOut where
  term : Option PyExc
  gitPushCalls : Nat
  recoveryPullCalls : Nat
deriving DecidableEq, Repr

def publishPushStage (env : PublishEnv) : PushStageOut :=
  match env.gitPush1 with
  | none => ⟨none, 1, 0⟩
  | some (.cancelled m) => ⟨some (.cancelled m), 1, 0⟩
  | some (.runtimeError m) => ⟨some (.runtimeError m), 1, 0⟩
  | some (.gitError m) =>
    if ¬ isNonFastForwardError m then ⟨some (.gitError m), 1, 0⟩
    else if env.cRecover then ⟨some (.cancelled cancelMsg), 1, 0⟩
    else
      match env.recoveryPull with
      | some e => ⟨some e, 1, 1⟩
      | none =>
        match env.gitPush2 with
        | some e => ⟨some e, 2, 1⟩
        | none => ⟨none, 2, 1⟩

/-- Lines 104-153 of `PublishWorkflow.execute`: the commit attempt and
everything after it, starting from the trace accumulated by the staging
steps.  Only `GitError` is inspected for the `nothing to commit` sentinel;
the no-changes path reports success without any pull or push. -/
def publishFromCommit (cfg : PublishCfg) (env : PublishEnv) (t : PublishTrace) :
    Option PyExc × PublishTrace :=
  let t := { t with commitCalls := t.commitCalls + 1, reachedCommit := true }
  match env.commit with
  | some (.cancelled m) => (some (.cancelled m), t)
  | some (.runtimeError m) => (some (.runtimeError m), t)
  | some (.gitError m) =>
    if ¬ isNothingToCommit m then (some (.gitError m), t)
    else
      -- has_changes = False: report success without any push (lines 114-117)
      if env.cNoChanges then (some (.cancelled cancelMsg), t)
      else (none, { t with finished := [(true, "No local change detected.")] })
  | none =>
  -- rebase on latest main (lines 119-124)
  if env.cRebase then (some (.cancelled cancelMsg), t) else
  match env.pullRebase with
  | some e => (some e, { t with gitPullCalls := t.gitPullCalls + 1 })
  | none =>
  let t := { t with gitPullCalls := t.gitPullCalls + 1 }
  if env.cAfterPull then (some (.cancelled cancelMsg), t) else
  if env.cDvcPush then (some (.cancelled cancelMsg), t) else
  match env.dvcPush with
  | some e => (some e, { t with dvcPushCalls := t.dvcPushCalls + 1 })
  | none =>
  let t := { t with dvcPushCalls := t.dvcPushCalls + 1 }
  if env.cAfterDvcPush then (some (.cancelled cancelMsg), t) else
  if env.cGitPush then (some (.cancelled cancelMsg), t) else
  let t := { t with reachedPush := true }
  let ps := publishPushStage env
  let t := { t with gitPushCalls := t.gitPushCalls + ps.gitPushCalls,
                     recoveryPullCalls := t.recoveryPullCalls + ps.recoveryPullCalls }
  match ps.term with
  | some e => (some e, t)
  | none =>
    if env.cComplete then (some (.cancelled cancelMsg), t)
    else (none, { t with finished := [(true, "Changes published.")] })

/-- The `try` body of `PublishWorkflow.execute` (lines 76-153).  Returns the
escaping exception, if any, together with the trace accumulated so far;
success paths record their finished emission themselves. -/
def publishBody (cfg : PublishCfg) (env : PublishEnv) : Option PyExc × PublishTrace :=
  if env.cPrep then (some (.cancelled cancelMsg), {}) else
  match env.initWs with
  | some e => (some e, { initCalls := 1 })
  | none =>
  let t : PublishTrace := { initCalls := 1 }
  if env.cAfterInit then (some (.cancelled cancelMsg), t) else
  match env.currentBranch with
  | .error e => (some e, t)
  | .ok none => (some (.runtimeError detachedMsg), t)
  | .ok (some branch) =>
  -- switch to main when on another branch (lines 87-90)
  let switched : Except (PyExc × PublishTrace) PublishTrace :=
    if branch = "main" then .ok t
    else if env.cSwitch then .error (.cancelled cancelMsg, t)
    else
      match env.checkoutMain with
      | some e => .error (e, { t with checkoutCalls := 1 })
      | none =>
        if env.cAfterCheckout then
          .error (.cancelled cancelMsg, { t with checkoutCalls := 1 })
        else .ok { t with checkoutCalls := 1 }
  match switched with
  | .error et => (some et.1, et.2)
  | .ok t =>
  -- dataset mode: track content first (lines 92-98)
  let tracked : Except (PyExc × PublishTrace) PublishTrace :=
    if ¬ cfg.hasDataset then .ok t
    else if env.cTrack then .error (.cancelled cancelMsg, t)
    else
      match env.dvcAdd with
      | some e => .error (e, { t with dvcAddCalls := 1 })
      | none => .ok { t with dvcAddCalls := 1 }
  match tracked with
  | .error et => (some et.1, et.2)
  | .ok t =>
  if env.cStage then (some (.cancelled cancelMsg), t) else
  match env.gitAdd with
  | some e => (some e, { t with gitAddCalls := 1 })
  | none =>
  let t := { t with gitAddCalls := 1 }
  if env.cAfterAdd then (some (.cancelled cancelMsg), t) else
  if env.cCommit then (some (.cancelled cancelMsg), t) else
  publishFromCommit cfg env t

/-- `PublishWorkflow.execute`: the body followed by the terminal exception
handlers. -/
def publishExec (cfg : PublishCfg) (env : PublishEnv) : PublishTrace :=
  let r := publishBody cfg env
  let handled := applyHandlers r.1 r.2.errors r.2.finished
  { r.2 with errors := handled.1, finished := handled.2 }

/-! ## FetchLatestWorkflow (src/workflows/sync_workflow.py, lines 9-52) -/

structure FetchCfg where
  allowDirty : Bool

structure FetchEnv where
  cPrep : Bool
  initWs : Option PyExc
  cAfterInit : Bool
  status : Except PyExc Bool
  cPull : Bool
  gitPull : Option PyExc
  cAfterPull : Bool
  cDvcPull : Bool
  dvcPull : Option PyExc
  cAfterDvcPull : Bool
  cCheckout : Bool
  dvcCheckout : Option PyExc
  branchRes : Except PyExc (Option String)
  cComplete : Bool

structure FetchTrace where
  initCalls : Nat := 0
  statusCalls : Nat := 0
  gitPullCalls : Nat := 0
  dvcPullCalls : Nat := 0
  dvcCheckoutCalls : Nat := 0
  branchCalls : Nat := 0
  errors : List String := []
  finished : List (Bool × String) := []
deriving DecidableEq, Repr

def dirtyMsg : String :=
  "Workspace has local changes. Commit or discard them before fetching latest."

/-- The `try` body of `FetchLatestWorkflow.execute` (lines 17-47). -/
def fetchBody (cfg : FetchCfg) (env : FetchEnv) : Option PyExc × FetchTrace :=
  if env.cPrep then (some (.cancelled cancelMsg), {}) else
  match env.initWs with
  | some e => (some e, { initCalls := 1 })
  | none =>
  let t : FetchTrace := { initCalls := 1 }
  if env.cAfterInit then (some (.cancelled cancelMsg), t) else
  match env.status with
  | .error e => (some e, { t with statusCalls := 1 })
  | .ok clean =>
  let t := { t with statusCalls := 1 }
  if ¬ clean ∧ ¬ cfg.allowDirty then (some (.runtimeError dirtyMsg), t) else
  if env.cPull then (some (.cancelled cancelMsg), t) else
  match env.gitPull with
  | some e => (some e, { t with gitPullCalls := 1 })
  | none =>
  let t := { t with gitPullCalls := 1 }
  if env.cAfterPull then (some (.cancelled cancelMsg), t) else
  if env.cDvcPull then (some (.cancelled cancelMsg), t) else
  match env.dvcPull with
  | some e => (some e, { t with dvcPullCalls := 1 })
  | none =>
  let t := { t with dvcPullCalls := 1 }
  if env.cAfterDvcPull then (some (.cancelled cancelMsg), t) else
  if env.cCheckout then (some (.cancelled cancelMsg), t) else
  match env.dvcCheckout with
  | some e => (some e, { t with dvcCheckoutCalls := 1 })
  | none =>
  let t := { t with dvcCheckoutCalls := 1 }
  match env.branchRes with
  | .error e => (some e, { t with branchCalls := 1 })
  | .ok branchOpt =>
  let t := { t with branchCalls := 1 }
  let branch := branchOpt.getD "detached"
  if env.cComplete then (some (.cancelled cancelMsg), t)
  else (none, { t with finished := [(true, "Workspace synced on " ++ branch ++ ".")] })

/-- `FetchLatestWorkflow.execute`. -/
def fetchExec (cfg : FetchCfg) (env : FetchEnv) : FetchTrace :=
  let r := fetchBody cfg env
  let handled := applyHandlers r.1 r.2.errors r.2.finished
  { r.2 with errors := handled.1, finished := handled.2 }

/-! ## ImportWorkflow (src/workflows/import_workflow.py) -/

structure ImportCfg where
  replaceDataset : Bool

structure ImportEnv where
  clk : Clock
  cPrep : Bool
  initWs : Except PyExc Bool
  cValidate : Bool
  validate : Except PyExc (Bool × String × Nat)
  cLock : Bool
  lockCheck : Except PyExc (Option LockInfo)
  acquireRes : Except PyExc Bool
  cSync : Bool
  gitPull : Option PyExc
  cAfterGitPull : Bool
  dvcPull : Option PyExc
  cAfterDvcPull : Bool
  mkdirs : Option PyExc
  cClean : Bool
  clearFolder : Except PyExc Nat
  cCopy : Bool
  copyFiles : Option PyExc
  cAfterCopy : Bool
  writeYaml : Option PyExc
  cTrack : Bool
  dvcAdd : Option PyExc
  cAfterTrack : Bool
  cCommit : Bool
  dvcFileExists : Bool
  metaFileExists : Bool
  dsGitignoreExists : Bool
  rootGitignoreExists : Bool
  gitAdd : Option PyExc
  commit : Option PyExc
  cDvcPush : Bool
  dvcPush : Option PyExc
  cAfterDvcPush : Bool
  cGitPush : Bool
  gitPush : Option PyExc
  cNoPush : Bool
  cComplete : Bool

structure ImportTrace where
  initCalls : Nat := 0
  validateCalls : Nat := 0
  checkCalls : Nat := 0
  acquireCalls : Nat := 0
  gitPullCalls : Nat := 0
  dvcPullCalls : Nat := 0
  clearCalls : Nat := 0
  copyCalls : Nat := 0
  dvcAddCalls : Nat := 0
  gitAddCalls : Nat := 0
  commitCalls : Nat := 0
  dvcPushCalls : Nat := 0
  gitPushCalls : Nat := 0
  releaseCalls : Nat := 0
  lockAcquired : Bool := false
  errors : List String := []
  finished : List (Bool × String) := []
deriving DecidableEq, Repr

/-- The lock-contention message of lines 52-60; the `strftime` rendering of a
parseable timestamp is the `formatTs` oracle of the clock, an unparseable one
keeps the raw timestamp string. -/
def lockHeldMsg (clk : Clock) (existing : LockInfo) : String :=
  "Dataset locked by " ++ existing.username ++ " on " ++ existing.machine ++
    " since " ++ ((clk.formatTs existing.timestamp).getD existing.timestamp) ++ "."

/-- Final progress emission and finished message of lines 158-170. -/
def importFinish (cfg : ImportCfg) (env : ImportEnv) (fileCount removedCount : Nat)
    (hasChanges : Bool) (t : ImportTrace) : Option PyExc × ImportTrace :=
  if env.cComplete then (some (.cancelled cancelMsg), t)
  else
    let msg :=
      if cfg.replaceDataset then
        "Replaced dataset with " ++ toString fileCount ++ " images (removed " ++
          toString removedCount ++ " previous files)."
      else if hasChanges then
        "Imported and published " ++ toString fileCount ++ " images."
      else "No dataset change detected; data already up to date."
    (none, { t with finished := [(true, msg)] })

/-- Lines 143-154: the DVC and git pushes of the `has_changes = True`
branch, followed by the final emissions. -/
def importPushes (cfg : ImportCfg) (env : ImportEnv) (fileCount removedCount : Nat)
    (t : ImportTrace) : Option PyExc × ImportTrace :=
  if env.cDvcPush then (some (.cancelled cancelMsg), t) else
  match env.dvcPush with
  | some e => (some e, { t with dvcPushCalls := t.dvcPushCalls + 1 })
  | none =>
  let t := { t with dvcPushCalls := t.dvcPushCalls + 1 }
  if env.cAfterDvcPush then (some (.cancelled cancelMsg), t) else
  if env.cGitPush then (some (.cancelled cancelMsg), t) else
  match env.gitPush with
  | some e => (some e, { t with gitPushCalls := t.gitPushCalls + 1 })
  | none =>
  let t := { t with gitPushCalls := t.gitPushCalls + 1 }
  importFinish cfg env fileCount removedCount true t

/-- Lines 111-156: the staging of the metadata files, the commit with its
`nothing to commit` tolerance, and the pushes (skipped when there was
nothing to commit). -/
def importCommitStage (cfg : ImportCfg) (env : ImportEnv) (fileCount removedCount : Nat)
    (t : ImportTrace) : Option PyExc × ImportTrace :=
  if env.cCommit then (some (.cancelled cancelMsg), t) else
  if ¬ (env.dvcFileExists ∨ env.metaFileExists ∨ env.dsGitignoreExists ∨
        env.rootGitignoreExists) then
    (some (.runtimeError "No files available to stage for commit."), t) else
  match env.gitAdd with
  | some e => (some e, { t with gitAddCalls := t.gitAddCalls + 1 })
  | none =>
  let t := { t with gitAddCalls := t.gitAddCalls + 1,
                     commitCalls := t.commitCalls + 1 }
  match env.commit with
  | some (.cancelled m) => (some (.cancelled m), t)
  | some (.runtimeError m) => (some (.runtimeError m), t)
  | some (.gitError m) =>
    if ¬ isNothingToCommit m then (some (.gitError m), t)
    else
      -- has_changes = False: no pushes (line 156)
      if env.cNoPush then (some (.cancelled cancelMsg), t)
      else importFinish cfg env fileCount removedCount false t
  | none => importPushes cfg env fileCount removedCount t

/-- Lines 87-170: from the copy of the source files to the end of the `try`
body. -/
def importFromCopy (cfg : ImportCfg) (env : ImportEnv) (fileCount removedCount : Nat)
    (t : ImportTrace) : Option PyExc × ImportTrace :=
  if env.cCopy then (some (.cancelled cancelMsg), t) else
  match env.copyFiles with
  | some e => (some e, { t with copyCalls := t.copyCalls + 1 })
  | none =>
  let t := { t with copyCalls := t.copyCalls + 1 }
  if env.cAfterCopy then (some (.cancelled cancelMsg), t) else
  match env.writeYaml with
  | some e => (some e, t)
  | none =>
  if env.cTrack then (some (.cancelled cancelMsg), t) else
  match env.dvcAdd with
  | some e => (some e, { t with dvcAddCalls := t.dvcAddCalls + 1 })
  | none =>
  let t := { t with dvcAddCalls := t.dvcAddCalls + 1 }
  if env.cAfterTrack then (some (.cancelled cancelMsg), t) else
  importCommitStage cfg env fileCount removedCount t

/-- Lines 66-170: everything after the lock has been acquired. -/
def importAfterLock (cfg : ImportCfg) (env : ImportEnv) (fileCount : Nat)
    (t : ImportTrace) : Option PyExc × ImportTrace :=
  if env.cSync then (some (.cancelled cancelMsg), t) else
  match env.gitPull with
  | some e => (some e, { t with gitPullCalls := t.gitPullCalls + 1 })
  | none =>
  let t := { t with gitPullCalls := t.gitPullCalls + 1 }
  if env.cAfterGitPull then (some (.cancelled cancelMsg), t) else
  match env.dvcPull with
  | some e => (some e, { t with dvcPullCalls := t.dvcPullCalls + 1 })
  | none =>
  let t := { t with dvcPullCalls := t.dvcPullCalls + 1 }
  if env.cAfterDvcPull then (some (.cancelled cancelMsg), t) else
  match env.mkdirs with
  | some e => (some e, t)
  | none =>
  if cfg.replaceDataset then
    if env.cClean then (some (.cancelled cancelMsg), t) else
    match env.clearFolder with
    | .error e => (some e, { t with clearCalls := t.clearCalls + 1 })
    | .ok removedCount =>
      importFromCopy cfg env fileCount removedCount
        { t with clearCalls := t.clearCalls + 1 }
  else importFromCopy cfg env fileCount 0 t

/-- Lines 62-64: the `acquire` call and its failure check; `lockAcquired`
becomes true exactly when `acquire` returns `True`. -/
def importAcquireStage (cfg : ImportCfg) (env : ImportEnv) (fileCount : Nat)
    (t : ImportTrace) : Option PyExc × ImportTrace :=
  match env.acquireRes with
  | .error e => (some e, { t with acquireCalls := 1 })
  | .ok false =>
    (some (.runtimeError "Could not acquire dataset lock."), { t with acquireCalls := 1 })
  | .ok true =>
    importAfterLock cfg env fileCount { t with acquireCalls := 1, lockAcquired := true }

/-- The `try` body of `ImportWorkflow.execute` (lines 38-170) up to and
including the lock acquisition. -/
def importBody (cfg : ImportCfg) (env : ImportEnv) : Option PyExc × ImportTrace :=
  if env.cPrep then (some (.cancelled cancelMsg), {}) else
  match env.initWs with
  | .error e => (some e, { initCalls := 1 })
  | .ok initialized =>
  let t : ImportTrace := { initCalls := 1 }
  if ¬ initialized then (some (.runtimeError "Workspace initialization failed."), t) else
  if env.cValidate then (some (.cancelled cancelMsg), t) else
  match env.validate with
  | .error e => (some e, { t with validateCalls := 1 })
  | .ok v =>
  let t := { t with validateCalls := 1 }
  if ¬ v.1 then (some (.runtimeError v.2.1), t) else
  let fileCount := v.2.2
  if env.cLock then (some (.cancelled cancelMsg), t) else
  match env.lockCheck with
  | .error e => (some e, { t with checkCalls := 1 })
  | .ok existingOpt =>
  let t := { t with checkCalls := 1 }
  match existingOpt with
  | some existing =>
    if ¬ isStale env.clk existing then
      (some (.runtimeError (lockHeldMsg env.clk existing)), t)
    else importAcquireStage cfg env fileCount t
  | none => importAcquireStage cfg env fileCount t

/-- `ImportWorkflow.execute`: the body, the terminal exception handlers, and
the `finally` clause releasing the lock when `lock_acquired` is set. -/
def importExec (cfg : ImportCfg) (env : ImportEnv) : ImportTrace :=
  let r := importBody cfg env
  let handled := applyHandlers r.1 r.2.errors r.2.finished
  let t := { r.2 with errors := handled.1, finished := handled.2 }
  if t.lockAcquired then { t with releaseCalls := t.releaseCalls + 1 } else t

/-- The conditions under which the import run acquires the lock, stated
directly on the environment: every step before the acquisition succeeds, no
cancellation is observed before it, the existing lock (if any) is stale, and
`acquire` returns `True`. -/
def importAcquireSucceeded (env : ImportEnv) : Bool :=
  !env.cPrep &&
  (match env.initWs with | .ok true => true | _ => false) &&
  !env.cValidate &&
  (match env.validate with | .ok v => v.1 | _ => false) &&
  !env.cLock &&
  (match env.lockCheck with
   | .ok (some existing) => isStale env.clk existing
   | .ok none => true
   | .error _ => false) &&
  (match env.acquireRes with | .ok b => b | _ => false)

/-! ## RestoreVersionWorkflow, ReturnToLatestWorkflow, LoadHistoryWorkflow
(src/workflows/history_workflow.py) -/

structure RestoreEnv where
  cPrep : Bool
  initWs : Option PyExc
  cAfterInit : Bool
  cCheckout : Bool
  gitCheckout : Option PyExc
  cAfterCheckout : Bool
  cRestore : Bool
  dvcCheckout : Option PyExc
  cAfterRestore : Bool
  cComplete : Bool

structure RestoreTrace where
  initCalls : Nat := 0
  gitCheckoutCalls : Nat := 0
  dvcCheckoutCalls : Nat := 0
  errors : List String := []
  finished : List (Bool × String) := []
deriving DecidableEq, Repr

/-- `RestoreVersionWorkflow.execute` (lines 106-126), `commitRef` being the
constructor argument. -/
def restoreBody (commitRef : String) (env : RestoreEnv) :
    Option PyExc × RestoreTrace :=
  if env.cPrep then (some (.cancelled cancelMsg), {}) else
  match env.initWs with
  | some e => (some e, { initCalls := 1 })
  | none =>
  let t : RestoreTrace := { initCalls := 1 }
  if env.cAfterInit then (some (.cancelled cancelMsg), t) else
  if env.cCheckout then (some (.cancelled cancelMsg), t) else
  match env.gitCheckout with
  | some e => (some e, { t with gitCheckoutCalls := 1 })
  | none =>
  let t := { t with gitCheckoutCalls := 1 }
  if env.cAfterCheckout then (some (.cancelled cancelMsg), t) else
  if env.cRestore then (some (.cancelled cancelMsg), t) else
  match env.dvcCheckout with
  | some e => (some e, { t with dvcCheckoutCalls := 1 })
  | none =>
  let t := { t with dvcCheckoutCalls := 1 }
  if env.cAfterRestore then (some (.cancelled cancelMsg), t) else
  if env.cComplete then (some (.cancelled cancelMsg), t)
  else (none, { t with finished := [(true, "Restored " ++ commitRef)] })

def restoreExec (commitRef : String) (env : RestoreEnv) : RestoreTrace :=
  let r := restoreBody commitRef env
  let handled := applyHandlers r.1 r.2.errors r.2.finished
  { r.2 with errors := handled.1, finished := handled.2 }

structure ReturnEnv where
  cPrep : Bool
  initWs : Option PyExc
  cAfterInit : Bool
  cCheckout : Bool
  gitCheckout : Option PyExc
  cAfterCheckout : Bool
  cPull : Bool
  gitPull : Option PyExc
  cAfterPull : Bool
  cDvcPull : Bool
  dvcPull : Option PyExc
  cAfterDvcPull : Bool
  cApply : Bool
  dvcCheckout : Option PyExc
  cAfterApply : Bool
  cComplete : Bool

structure ReturnTrace where
  initCalls : Nat := 0
  gitCheckoutCalls : Nat := 0
  gitPullCalls : Nat := 0
  dvcPullCalls : Nat := 0
  dvcCheckoutCalls : Nat := 0
  errors : List String := []
  finished : List (Bool × String) := []
deriving DecidableEq, Repr

/-- `ReturnToLatestWorkflow.execute` (lines 135-169). -/
def returnBody (env : ReturnEnv) : Option PyExc × ReturnTrace :=
  if env.cPrep then (some (.cancelled cancelMsg), {}) else
  match env.initWs with
  | some e => (some e, { initCalls := 1 })
  | none =>
  let t : ReturnTrace := { initCalls := 1 }
  if env.cAfterInit then (some (.cancelled cancelMsg), t) else
  if env.cCheckout then (some (.cancelled cancelMsg), t) else
  match env.gitCheckout with
  | some e => (some e, { t with gitCheckoutCalls := 1 })
  | none =>
  let t := { t with gitCheckoutCalls := 1 }
  if env.cAfterCheckout then (some (.cancelled cancelMsg), t) else
  if env.cPull then (some (.cancelled cancelMsg), t) else
  match env.gitPull with
  | some e => (some e, { t with gitPullCalls := 1 })
  | none =>
  let t := { t with gitPullCalls := 1 }
  if env.cAfterPull then (some (.cancelled cancelMsg), t) else
  if env.cDvcPull then (some (.cancelled cancelMsg), t) else
  match env.dvcPull with
  | some e => (some e, { t with dvcPullCalls := 1 })
  | none =>
  let t := { t with dvcPullCalls := 1 }
  if env.cAfterDvcPull then (some (.cancelled cancelMsg), t) else
  if env.cApply then (some (.cancelled cancelMsg), t) else
  match env.dvcCheckout with
  | some e => (some e, { t with dvcCheckoutCalls := 1 })
  | none =>
  let t := { t with dvcCheckoutCalls := 1 }
  if env.cAfterApply then (some (.cancelled cancelMsg), t) else
  if env.cComplete then (some (.cancelled cancelMsg), t)
  else (none, { t with finished := [(true, "Returned to latest main")] })

def returnExec (env : ReturnEnv) : ReturnTrace :=
  let r := returnBody env
  let handled := applyHandlers r.1 r.2.errors r.2.finished
  { r.2 with errors := handled.1, finished := handled.2 }

structure HistoryCfg where
  datasetId : String

structure HistoryEnv where
  cPrep : Bool
  initWs : Option PyExc
  cAfterInit : Bool
  cLoad : Bool
  logRes : Except PyExc (List CommitInfo)
  cAfterLog : Bool
  cAnalyze : Bool
  showFile : String → String → Option String
  firstParent : String → Option String
  cLoaded : Bool

structure HistoryTrace where
  initCalls : Nat := 0
  logCalls : Nat := 0
  historyEmits : Nat := 0
  commitsOut : List CommitInfo := []
  errors : List String := []
  finished : List (Bool × String) := []
deriving DecidableEq, Repr

/-- `LoadHistoryWorkflow.execute` (lines 71-91): log, delta population over
the loaded commits, the `history_loaded` signal, the final emissions. -/
def historyBody (cfg : HistoryCfg) (env : HistoryEnv) :
    Option PyExc × HistoryTrace :=
  if env.cPrep then (some (.cancelled cancelMsg), {}) else
  match env.initWs with
  | some e => (some e, { initCalls := 1 })
  | none =>
  let t : HistoryTrace := { initCalls := 1 }
  if env.cAfterInit then (some (.cancelled cancelMsg), t) else
  if env.cLoad then (some (.cancelled cancelMsg), t) else
  match env.logRes with
  | .error e => (some e, { t with logCalls := 1 })
  | .ok commits =>
  let t := { t with logCalls := 1 }
  if env.cAfterLog then (some (.cancelled cancelMsg), t) else
  if env.cAnalyze then (some (.cancelled cancelMsg), t) else
  let commits2 :=
    populateImageDeltas env.showFile env.firstParent cfg.datasetId commits
  let t := { t with commitsOut := commits2, historyEmits := 1 }
  if env.cLoaded then (some (.cancelled cancelMsg), t)
  else (none, { t with finished :=
    [(true, "Loaded " ++ toString commits2.length ++ " commits.")] })

def historyExec (cfg : HistoryCfg) (env : HistoryEnv) : HistoryTrace :=
  let r := historyBody cfg env
  let handled := applyHandlers r.1 r.2.errors r.2.finished
  { r.2 with errors := handled.1, finished := handled.2 }

/-! ## Concrete environments used by witnesses -/

/-- A restore environment whose cancellation flag is already set. -/
def restoreCancelEnv : RestoreEnv :=
  { cPrep := true, initWs := none, cAfterInit := false, cCheckout := false,
    gitCheckout := none, cAfterCheckout := false, cRestore := false,
    dvcCheckout := none, cAfterRestore := false, cComplete := false }

/-- A return-to-latest environment whose cancellation flag is already set. -/
def returnCancelEnv : ReturnEnv :=
  { cPrep := true, initWs := none, cAfterInit := false, cCheckout := false,
    gitCheckout := none, cAfterCheckout := false, cPull := false,
    gitPull := none, cAfterPull := false, cDvcPull := false, dvcPull := none,
    cAfterDvcPull := false, cApply := false, dvcCheckout := none,
    cAfterApply := false, cComplete := false }

/-- A history environment whose cancellation flag is already set. -/
def historyCancelEnv : HistoryEnv :=
  { cPrep := true, initWs := none, cAfterInit := false, cLoad := false,
    logRes := .ok [], cAfterLog := false, cAnalyze := false,
    showFile := fun _ _ => none, firstParent := fun _ => none,
    cLoaded := false }

/-- A publish run that sails through to the push, is rejected with a
non-fast-forward error, and whose retried push after the one rebase-pull
fails again. -/
def publishConflictEnv : PublishEnv :=
  { cPrep := false, initWs := none, cAfterInit := false,
    currentBranch := .ok (some "main"), cSwitch := false, checkoutMain := none,
    cAfterCheckout := false, cTrack := false, dvcAdd := none, cStage := false,
    gitAdd := none, cAfterAdd := false, cCommit := false, commit := none,
    cNoChanges := false, cRebase := false, pullRebase := none,
    cAfterPull := false, cDvcPush := false, dvcPush := none,
    cAfterDvcPush := false, cGitPush := false,
    gitPush1 := some (.gitError "updates were rejected: non-fast-forward"),
    cRecover := false, recoveryPull := none,
    gitPush2 := some (.gitError "remote rejected: failed to push some refs"),
    cComplete := false }

/-- A fetch environment whose cancellation flag is already set at the first
progress emission. -/
def fetchCancelEnv : FetchEnv :=
  { cPrep := true, initWs := none, cAfterInit := false, status := .ok true,
    cPull := false, gitPull := none, cAfterPull := false, cDvcPull := false,
    dvcPull := none, cAfterDvcPull := false, cCheckout := false,
    dvcCheckout := none, branchRes := .ok (some "main"), cComplete := false }

/-- A publish environment whose cancellation flag is already set at the
first progress emission. -/
def publishCancelEnv : PublishEnv :=
  { publishConflictEnv with cPrep := true }

/-- An import environment whose cancellation flag is already set at the
first progress emission. -/
def importCancelEnv : ImportEnv :=
  { clk := ⟨fun _ => none, fun _ => none, 0⟩, cPrep := true,
    initWs := .ok true, cValidate := false, validate := .ok (true, "ok", 3),
    cLock := false, lockCheck := .ok none, acquireRes := .ok true,
    cSync := false, gitPull := none, cAfterGitPull := false, dvcPull := none,
    cAfterDvcPull := false, mkdirs := none, cClean := false,
    clearFolder := .ok 0, cCopy := false, copyFiles := none,
    cAfterCopy := false, writeYaml := none, cTrack := false, dvcAdd := none,
    cAfterTrack := false, cCommit := false, dvcFileExists := true,
    metaFileExists := true, dsGitignoreExists := false,
    rootGitignoreExists := false, gitAdd := none, commit := none,
    cDvcPush := false, dvcPush := none, cAfterDvcPush := false,
    cGitPush := false, gitPush := none, cNoPush := false, cComplete := false }

/-! ## Theorems -/

theorem sameLock_iff (a b : LockInfo) : sameLock a b = true ↔ a = b := by
  cases a
  cases b
  simp [sameLock, LockInfo.mk.injEq, and_assoc]

theorem tryRemove_some (clk : Clock) (cur : Option LockInfo) (u : Bool)
    (ex d : LockInfo) (h : tryRemoveStaleIfUnchanged clk cur u ex = some d) :
    cur = some d ∧ d = ex ∧ isStale clk d = true ∧ u = true := by
  cases cur with
  | none => simp [tryRemoveStaleIfUnchanged] at h
  | some c =>
    by_cases h1 : sameLock c ex = true
    · have hce : c = ex := (sameLock_iff c ex).mp h1
      subst hce
      by_cases h2 : isStale clk c = true
      · by_cases h3 : u = true
        · simp only [tryRemoveStaleIfUnchanged, h1, h2, h3, not_true,
            if_false, if_true, ite_false, ite_true] at h
          obtain rfl := Option.some.inj h
          exact ⟨rfl, rfl, h2, h3⟩
        · simp [tryRemoveStaleIfUnchanged, h1, h2, h3] at h
      · simp [tryRemoveStaleIfUnchanged, h1, h2] at h
    · simp [tryRemoveStaleIfUnchanged, h1] at h

/-- C1 (amended): on conflict, a readable fresh lock makes `acquire` fail
with no deletion; a re-read that differs from the record judged stale makes
it fail with no deletion; every deleted record was observed stale and
byte-for-byte identical by the read and the re-read of its round; a first
successful reclaim is followed by exactly one more create attempt (never a
third); and when the retried create conflicts again the handler body runs
once more, so a second stale record can be deleted before the call returns
false — at most two deletions per call, two only on a failing call. -/
theorem acquire_stale_reclaim_protocol (clk : Clock) (r1 r2 : FsRound)
    (h : r1.createOk = false) :
    ((r1.readA = none ∨ ∃ ex, r1.readA = some ex ∧ isStale clk ex = false) →
        acquire clk r1 r2 = ⟨false, [], 1⟩) ∧
    (∀ ex, r1.readA = some ex → isStale clk ex = true → r1.readB ≠ some ex →
        acquire clk r1 r2 = ⟨false, [], 1⟩) ∧
    (∀ d ∈ (acquire clk r1 r2).deleted, isStale clk d = true ∧
        ((r1.readA = some d ∧ r1.readB = some d) ∨
         (r2.readA = some d ∧ r2.readB = some d))) ∧
    ((acquire clk r1 r2).deleted ≠ [] → (acquire clk r1 r2).creates = 2) ∧
    (acquire clk r1 r2).creates ≤ 2 ∧
    (acquire clk r1 r2).deleted.length ≤ 2 ∧
    ((acquire clk r1 r2).deleted.length = 2 → (acquire clk r1 r2).ok = false) := by
  rcases hA : r1.readA with _ | ex1
  · have hv : acquire clk r1 r2 = ⟨false, [], 1⟩ := by simp [acquire, h, hA]
    simp [hv, hA]
  · rcases hs1 : isStale clk ex1 with _ | _
    · have hv : acquire clk r1 r2 = ⟨false, [], 1⟩ := by simp [acquire, h, hA, hs1]
      simp [hv, hA, hs1]
    · rcases hR : tryRemoveStaleIfUnchanged clk r1.readB r1.unlinkOk ex1 with _ | d1
      · have hv : acquire clk r1 r2 = ⟨false, [], 1⟩ := by
          simp [acquire, h, hA, hs1, hR]
        simp [hv, hA, hs1]
      · obtain ⟨hB1, hd1, hsd1, hu1⟩ := tryRemove_some _ _ _ _ _ hR
        subst hd1
        rcases hC2 : r2.createOk with _ | _
        · rcases hA2 : r2.readA with _ | ex2
          · have hv : acquire clk r1 r2 = ⟨false, [d1], 2⟩ := by
              simp [acquire, h, hA, hs1, hR, hC2, hA2]
            simp_all
          · rcases hs2 : isStale clk ex2 with _ | _
            · have hv : acquire clk r1 r2 = ⟨false, [d1], 2⟩ := by
                simp [acquire, h, hA, hs1, hR, hC2, hA2, hs2]
              simp_all
            · rcases hR2 : tryRemoveStaleIfUnchanged clk r2.readB r2.unlinkOk ex2 with _ | d2
              · have hv : acquire clk r1 r2 = ⟨false, [d1], 2⟩ := by
                  simp [acquire, h, hA, hs1, hR, hC2, hA2, hs2, hR2]
                simp_all
              · obtain ⟨hB2, hd2, hsd2, hu2⟩ := tryRemove_some _ _ _ _ _ hR2
                subst hd2
                have hv : acquire clk r1 r2 = ⟨false, [d1, d2], 2⟩ := by
                  simp [acquire, h, hA, hs1, hR, hC2, hA2, hs2, hR2]
                simp_all
        · have hv : acquire clk r1 r2 = ⟨true, [d1], 2⟩ := by
            simp [acquire, h, hA, hs1, hR, hC2]
          simp_all

/-- C1 counterexample: with the existing stale record re-read unchanged, the
deletion and create retry performed, and the second create again conflicting
on a different stale record that is also re-read unchanged, one `acquire`
call deletes two distinct records — more than the single reclaim attempt per
call the claim allows. -/
theorem acquire_double_reclaim_counterexample :
    acquire
      ⟨fun s => if s = "t0" then some 0 else none, fun _ => none, (100 : Rat)⟩
      ⟨false, some ⟨"d1", "u1", "m1", "t0", "1.0", 1⟩,
        some ⟨"d1", "u1", "m1", "t0", "1.0", 1⟩, true⟩
      ⟨false, some ⟨"d1", "u2", "m1", "t0", "1.0", 1⟩,
        some ⟨"d1", "u2", "m1", "t0", "1.0", 1⟩, true⟩ =
      ⟨false, [⟨"d1", "u1", "m1", "t0", "1.0", 1⟩, ⟨"d1", "u2", "m1", "t0", "1.0", 1⟩], 2⟩ ∧
    (⟨"d1", "u1", "m1", "t0", "1.0", 1⟩ : LockInfo) ≠ ⟨"d1", "u2", "m1", "t0", "1.0", 1⟩ := by
  constructor
  · simp [acquire, tryRemoveStaleIfUnchanged, sameLock, isStale]
  · simp

/-- C1 witness: the amended protocol at a concrete conflicted call — a fresh
existing lock makes `acquire` return false having deleted nothing. -/
theorem acquire_stale_reclaim_protocol_witness :
    acquire ⟨fun _ => some 0, fun _ => none, (0 : Rat)⟩
      ⟨false, some ⟨"d1", "u1", "m1", "t0", "1.0", 1⟩, none, true⟩
      ⟨true, none, none, true⟩ = ⟨false, [], 1⟩ :=
  (acquire_stale_reclaim_protocol
      ⟨fun _ => some 0, fun _ => none, (0 : Rat)⟩
      ⟨false, some ⟨"d1", "u1", "m1", "t0", "1.0", 1⟩, none, true⟩
      ⟨true, none, none, true⟩ rfl).1
    (Or.inr ⟨⟨"d1", "u1", "m1", "t0", "1.0", 1⟩, rfl, by simp [isStale]⟩)

/-- C2 (amended): when the lock file exists and its record is readable,
`release` deletes the file and returns true only for the recorded holder
(same username and machine) or in administrative override mode, and
otherwise returns false leaving the file in place; when the record is
unreadable (corrupt) the identity guard is skipped and the file is deleted
unconditionally; with the file present the returned boolean always equals
whether the file was deleted. -/
theorem release_holder_only (self : Identity) (adminMode : Bool)
    (env : ReleaseEnv) (hex : env.fileExists = true) :
    (∀ info, env.readResult = some info → adminMode = false →
        ¬ (info.username = self.username ∧ info.machine = self.machine) →
        release self adminMode env = (false, false)) ∧
    (∀ info, env.readResult = some info → (release self adminMode env).2 = true →
        adminMode = true ∨
          (info.username = self.username ∧ info.machine = self.machine)) ∧
    (env.readResult = none →
        release self adminMode env = (env.unlinkOk, env.unlinkOk)) ∧
    (release self adminMode env).1 = (release self adminMode env).2 := by
  rcases hR : env.readResult with _ | info
  · have hv : release self adminMode env = (env.unlinkOk, env.unlinkOk) := by
      rcases hu : env.unlinkOk <;> simp [release, hex, hR, hu]
    rw [hv]
    simp [hR]
  · by_cases hadmin : adminMode = true
    · have hv : release self adminMode env = (env.unlinkOk, env.unlinkOk) := by
        rcases hu : env.unlinkOk <;> simp [release, hex, hR, hu, hadmin]
      rw [hv]
      simp [hR, hadmin]
    · replace hadmin : adminMode = false := by simpa using hadmin
      by_cases hsame : info.username = self.username ∧ info.machine = self.machine
      · have hv : release self adminMode env = (env.unlinkOk, env.unlinkOk) := by
          rcases hu : env.unlinkOk <;>
            simp [release, hex, hR, hu, hadmin, hsame.1, hsame.2]
        rw [hv]
        refine ⟨?_, ?_, ?_, rfl⟩
        · intro i hi _ hn
          obtain rfl := Option.some.inj (hR ▸ hi : some info = some i)
          exact absurd hsame hn
        · intro i hi _
          obtain rfl := Option.some.inj (hR ▸ hi : some info = some i)
          exact Or.inr hsame
        · intro hc
          exact absurd hc (by simp)
      · have hv : release self adminMode env = (false, false) := by
          simp [release, hex, hR, hadmin]
          intro hu hm
          exact absurd ⟨hu, hm⟩ hsame
        rw [hv]
        refine ⟨fun _ _ _ _ => rfl, ?_, ?_, rfl⟩
        · intro i hi hfalse
          exact absurd hfalse (by simp)
        · intro hc
          exact absurd hc (by simp)

/-- C2 counterexample: a lock file that exists but holds an unreadable
record is deleted (and `release` returns true) by a caller that is not the
recorded holder and has no administrative override. -/
theorem release_corrupt_lock_deleted_counterexample :
    release ⟨"alice", "host1"⟩ false ⟨true, none, true⟩ = (true, true) := by
  simp [release]

/-- C2 witness: a readable record held by someone else, no override —
`release` fails without deleting. -/
theorem release_holder_only_witness :
    release ⟨"alice", "host1"⟩ false
      ⟨true, some ⟨"d1", "bob", "host2", "t0", "1.0", 4⟩, true⟩ = (false, false) :=
  (release_holder_only ⟨"alice", "host1"⟩ false
      ⟨true, some ⟨"d1", "bob", "host2", "t0", "1.0", 4⟩, true⟩ rfl).1
    ⟨"d1", "bob", "host2", "t0", "1.0", 4⟩ rfl rfl (by simp)

/-- C10: with no lock file present, both `release` and `force_unlock` are
successful no-ops — they return true and delete nothing. -/
theorem release_forceUnlock_absent_noop (self : Identity) (adminMode : Bool)
    (env : ReleaseEnv) (h : env.fileExists = false) :
    release self adminMode env = (true, false) ∧ forceUnlock env = (true, false) := by
  simp [release, forceUnlock, h]

/-- C10 witness. -/
theorem release_forceUnlock_absent_noop_witness :
    release ⟨"alice", "host1"⟩ false ⟨false, none, true⟩ = (true, false) ∧
    forceUnlock ⟨false, none, true⟩ = (true, false) :=
  release_forceUnlock_absent_noop ⟨"alice", "host1"⟩ false ⟨false, none, true⟩ rfl

/-- C7: deltas are `current - previous` with `added = max(delta, 0)` and
`removed = max(-delta, 0)`; a root commit uses zero as the previous value;
two unreadable markers give zero outputs; and through the full pipeline
(marker parsing included), nfiles 12 over parent 10 gives (2, 0), 8 over 10
gives (0, 2), a root with 10 gives (10, 0), and a commit whose marker and
parent marker are both unreadable gives (0, 0). -/
theorem image_delta_computation :
    (∀ cur prev : Nat, imageDelta (some cur) (some prev) =
        (max ((cur : Int) - (prev : Int)) 0, max ((prev : Int) - (cur : Int)) 0)) ∧
    (∀ cur : Nat, imageDelta (some cur) (some 0) = ((cur : Int), 0)) ∧
    imageDelta none none = (0, 0) ∧
    populateImageDeltas histShowFile histFirstParent "cam"
        [⟨"C", 0, 0⟩, ⟨"D", 0, 0⟩, ⟨"R", 0, 0⟩, ⟨"X", 0, 0⟩] =
      [⟨"C", 2, 0⟩, ⟨"D", 0, 2⟩, ⟨"R", 10, 0⟩, ⟨"X", 0, 0⟩] := by
  refine ⟨?_, ?_, by simp [imageDelta], by decide⟩
  · intro cur prev
    simp [imageDelta, neg_sub]
  · intro cur
    simp only [imageDelta]
    norm_num
    intro h
    exact absurd h (by simp)

/-- C8: every commit produced by the delta computation has non-negative
`images_added` and `images_removed`, at most one of the two is nonzero, and
both are zero exactly when the underlying delta is zero. -/
theorem image_delta_invariant (showFile : String → String → Option String)
    (firstParent : String → Option String) (path : String) (c : CommitInfo) :
    0 ≤ (populateOne showFile firstParent path c).images_added ∧
    0 ≤ (populateOne showFile firstParent path c).images_removed ∧
    ((populateOne showFile firstParent path c).images_added = 0 ∨
      (populateOne showFile firstParent path c).images_removed = 0) ∧
    (((populateOne showFile firstParent path c).images_added = 0 ∧
      (populateOne showFile firstParent path c).images_removed = 0) ↔
      commitDelta showFile firstParent path c = 0) := by
  unfold populateOne commitDelta
  rcases dvcNfiles (showFile c.hash path) with _ | cur <;>
    rcases firstParent c.hash with _ | p <;>
      simp [imageDelta] <;>
        first
          | omega
          | (rcases dvcNfiles (showFile p path) with _ | prev <;> simp <;> omega)

theorem retryLoop_opCalls_le (steps : Nat → RetryAttempt) (attempts : Nat) :
    ∀ l, (retryLoop steps attempts l).opCalls ≤ l.length := by
  intro l
  induction l with
  | nil => simp [retryLoop]
  | cons a rest ih =>
    unfold retryLoop
    by_cases hc : (steps a).cancelledAtStart = true
    · simp [hc]
    · rcases ho : (steps a).outcome with _ | _ | m
      · simp [hc, ho]
      · simp [hc, ho]
      · simp only [hc, ho, Bool.false_eq_true, if_false, List.length_cons]
        split_ifs <;> simp <;> omega

theorem retryLoop_opCalls_zero (steps : Nat → RetryAttempt) (attempts : Nat)
    (l : List Nat) (hne : l ≠ []) (h : (retryLoop steps attempts l).opCalls = 0) :
    (retryLoop steps attempts l).result = .cancelled := by
  rcases l with _ | ⟨a, rest⟩
  · exact absurd rfl hne
  unfold retryLoop at h ⊢
  by_cases hc : (steps a).cancelledAtStart = true
  · simp [hc]
  · rcases ho : (steps a).outcome with _ | _ | m
    · simp [hc, ho] at h
    · simp [hc, ho] at h
    · simp only [hc, ho, Bool.false_eq_true, if_false] at h
      split_ifs at h <;> simp at h

theorem retryLoop_mid (steps : Nat → RetryAttempt) (attempts : Nat) :
    ∀ l j, j + 1 < (retryLoop steps attempts l).opCalls →
      ∃ m, (steps (l.getD j 0)).outcome = .err m ∧
        isRetryableNetworkError m = true := by
  intro l
  induction l with
  | nil => intro j hj; simp [retryLoop] at hj
  | cons a rest ih =>
    intro j hj
    unfold retryLoop at hj
    by_cases hc : (steps a).cancelledAtStart = true
    · simp [hc] at hj
    · rcases ho : (steps a).outcome with _ | _ | m
      · simp [hc, ho] at hj
      · simp [hc, ho] at hj
      · simp only [hc, ho, Bool.false_eq_true, if_false] at hj
        split_ifs at hj with h1 h2
        · simp at hj
        · simp at hj
        · simp only [not_or] at h1
          cases j with
          | zero => exact ⟨m, by simpa using ho, by simpa using h1.2⟩
          | succ j =>
            have hj2 : j + 1 < (retryLoop steps attempts rest).opCalls := by
              simp at hj
              omega
            simpa using ih j hj2

theorem retryLoop_failed (steps : Nat → RetryAttempt) (attempts : Nat) :
    ∀ l, (∀ a, l.getLast? = some a → attempts ≤ a) →
      ∀ m, (retryLoop steps attempts l).result = .failed m → l ≠ [] →
        ∃ j, j < l.length ∧ (retryLoop steps attempts l).opCalls = j + 1 ∧
          (steps (l.getD j 0)).outcome = .err m ∧
          (attempts ≤ l.getD j 0 ∨ isRetryableNetworkError m = false) := by
  intro l
  induction l with
  | nil => intro _ m _ hne; exact absurd rfl hne
  | cons a rest ih =>
    intro hlast m hres _
    unfold retryLoop at hres ⊢
    by_cases hc : (steps a).cancelledAtStart = true
    · simp [hc] at hres
    · rcases ho : (steps a).outcome with _ | _ | m'
      · simp [hc, ho] at hres
      · simp [hc, ho] at hres
      · simp only [hc, ho, Bool.false_eq_true, if_false] at hres ⊢
        split_ifs at hres ⊢ with h1 h2
        · obtain rfl : m' = m := by simpa using hres
          refine ⟨0, by simp, by simp, by simpa using ho, ?_⟩
          rcases h1 with h1 | h1
          · exact Or.inl (by simpa using h1)
          · exact Or.inr (by simpa using h1)
        · have h1' := h1
          simp only [not_or] at h1'
          have hrestne : rest ≠ [] := by
            intro hre
            subst hre
            exact h1'.1 (hlast a (by simp))
          have hlast2 : ∀ b, rest.getLast? = some b → attempts ≤ b := by
            intro b hb2
            refine hlast b ?_
            rcases rest with _ | ⟨c, rest2⟩
            · simp at hb2
            · simpa using hb2
          obtain ⟨j, hj1, hj2, hj3, hj4⟩ :=
            ih hlast2 m (by simpa using hres) hrestne
          exact ⟨j + 1, by simpa using hj1, by simp [hj2], by simpa using hj3,
            by simpa using hj4⟩

theorem retryLoop_delays (steps : Nat → RetryAttempt) (attempts : Nat) :
    ∀ l, (∀ a, l.getLast? = some a → attempts ≤ a) →
      (retryLoop steps attempts l).result ≠ .cancelled →
      (retryLoop steps attempts l).delays =
        (l.take ((retryLoop steps attempts l).opCalls - 1)).map backoffDelay := by
  intro l
  induction l with
  | nil => intro _ _; simp [retryLoop]
  | cons a rest ih =>
    intro hlast hres
    unfold retryLoop at hres ⊢
    by_cases hc : (steps a).cancelledAtStart = true
    · simp [hc] at hres
    · rcases ho : (steps a).outcome with _ | _ | m
      · simp [hc, ho]
      · simp [hc, ho] at hres
      · simp only [hc, ho, Bool.false_eq_true, if_false] at hres ⊢
        split_ifs at hres ⊢ with h1 h2
        · simp
        · simp at hres
        · have h1' := h1
          simp only [not_or] at h1'
          have hrestne : rest ≠ [] := by
            intro hre
            subst hre
            exact h1'.1 (hlast a (by simp))
          have hlast2 : ∀ b, rest.getLast? = some b → attempts ≤ b := by
            intro b hb2
            refine hlast b ?_
            rcases rest with _ | ⟨c, rest2⟩
            · simp at hb2
            · simpa using hb2
          have hres2 : (retryLoop steps attempts rest).result ≠ .cancelled := by
            simpa using hres
          have hn : 1 ≤ (retryLoop steps attempts rest).opCalls := by
            by_contra hlt
            have h0 : (retryLoop steps attempts rest).opCalls = 0 := by omega
            exact hres2 (retryLoop_opCalls_zero steps attempts rest hrestne h0)
          obtain ⟨n, hn2⟩ : ∃ n, (retryLoop steps attempts rest).opCalls = n + 1 :=
            ⟨(retryLoop steps attempts rest).opCalls - 1, by omega⟩
          have hdel := ih hlast2 hres2
          simp only [hn2] at hdel ⊢
          simp [hdel]

/-- C4: under the default retry policy the operation runs at most 3 times;
every attempt that was followed by another attempt failed with a message
containing a transient-network indicator; the slept backoff delays are
`min(8, 0.75 * 2^(n-1))` seconds after attempt `n`; a cancellation observed
at the start of retrying aborts immediately with a cancellation result (not
a failure) and no operation call; and a failed result carries the message of
the last executed attempt, which was either the third attempt or a
non-retryable error. -/
theorem retry_policy (steps : Nat → RetryAttempt) :
    (runNetworkOpWithRetry steps 3).opCalls ≤ 3 ∧
    ((steps 1).cancelledAtStart = true →
        runNetworkOpWithRetry steps 3 = ⟨.cancelled, 0, []⟩) ∧
    (∀ k m, 1 ≤ k → k < (runNetworkOpWithRetry steps 3).opCalls →
        (steps k).outcome = .err m → isRetryableNetworkError m = true) ∧
    (∀ k, 1 ≤ k → k < (runNetworkOpWithRetry steps 3).opCalls →
        ∃ m, (steps k).outcome = .err m) ∧
    ((runNetworkOpWithRetry steps 3).result ≠ .cancelled →
        (runNetworkOpWithRetry steps 3).delays =
          (List.range ((runNetworkOpWithRetry steps 3).opCalls - 1)).map
            (fun i => backoffDelay (i + 1))) ∧
    backoffDelay 1 = 3 / 4 ∧ backoffDelay 2 = 3 / 2 ∧
    (∀ n, backoffDelay n = min 8 ((3 / 4 : Rat) * 2 ^ (n - 1))) ∧
    (∀ m, (runNetworkOpWithRetry steps 3).result = .failed m →
        (steps (runNetworkOpWithRetry steps 3).opCalls).outcome = .err m ∧
        ((runNetworkOpWithRetry steps 3).opCalls = 3 ∨
          isRetryableNetworkError m = false)) := by
  have h30 : runNetworkOpWithRetry steps 3 = retryLoop steps 3 [1, 2, 3] := rfl
  have hle : (runNetworkOpWithRetry steps 3).opCalls ≤ 3 := by
    rw [h30]
    simpa using retryLoop_opCalls_le steps 3 [1, 2, 3]
  refine ⟨hle, ?_, ?_, ?_, ?_, by norm_num [backoffDelay],
    by norm_num [backoffDelay], fun n => rfl, ?_⟩
  · intro hc
    rw [h30]
    simp [retryLoop, hc]
  · intro k m hk1 hk2 ho
    rw [h30] at hk2
    obtain ⟨m', hm'1, hm'2⟩ :=
      retryLoop_mid steps 3 [1, 2, 3] (k - 1) (by omega)
    have hk3 : k ≤ 2 := by
      have := retryLoop_opCalls_le steps 3 [1, 2, 3]
      simp at this
      omega
    interval_cases k
    · simp at hm'1
      rw [ho] at hm'1
      obtain rfl : m = m' := by simpa using hm'1
      exact hm'2
    · simp at hm'1
      rw [ho] at hm'1
      obtain rfl : m = m' := by simpa using hm'1
      exact hm'2
  · intro k hk1 hk2
    rw [h30] at hk2
    obtain ⟨m', hm'1, hm'2⟩ :=
      retryLoop_mid steps 3 [1, 2, 3] (k - 1) (by omega)
    have hk3 : k ≤ 2 := by
      have := retryLoop_opCalls_le steps 3 [1, 2, 3]
      simp at this
      omega
    interval_cases k
    · exact ⟨m', by simpa using hm'1⟩
    · exact ⟨m', by simpa using hm'1⟩
  · intro hres
    rw [h30] at hres ⊢
    have hd := retryLoop_delays steps 3 [1, 2, 3] (by simp) hres
    have hle2 : (retryLoop steps 3 [1, 2, 3]).opCalls ≤ 3 := by
      simpa using retryLoop_opCalls_le steps 3 [1, 2, 3]
    rw [hd]
    rcases hn : (retryLoop steps 3 [1, 2, 3]).opCalls with _ | _ | _ | n
    · rfl
    · rfl
    · rfl
    · have : n = 0 := by omega
      subst this
      rfl
  · intro m hres
    rw [h30] at hres ⊢
    obtain ⟨j, hj1, hj2, hj3, hj4⟩ :=
      retryLoop_failed steps 3 [1, 2, 3] (by simp) m hres (by simp)
    simp at hj1
    interval_cases j
    · refine ⟨by simpa [hj2] using hj3, ?_⟩
      rcases hj4 with h4 | h4
      · simp at h4
      · exact Or.inr h4
    · refine ⟨by simpa [hj2] using hj3, ?_⟩
      rcases hj4 with h4 | h4
      · simp at h4
      · exact Or.inr h4
    · refine ⟨by simpa [hj2] using hj3, ?_⟩
      exact Or.inl (by simp [hj2])

/-- C4 witness: a cancellation flag observed before the first attempt aborts
with a cancellation result, zero operation calls and no sleeping. -/
theorem retry_policy_witness :
    runNetworkOpWithRetry (fun _ => ⟨true, .ok, false⟩) 3 = ⟨.cancelled, 0, []⟩ :=
  (retry_policy (fun _ => ⟨true, .ok, false⟩)).2.1 rfl

theorem publishExec_fields (cfg : PublishCfg) (env : PublishEnv) :
    (publishExec cfg env).reachedCommit = (publishBody cfg env).2.reachedCommit ∧
    (publishExec cfg env).reachedPush = (publishBody cfg env).2.reachedPush ∧
    (publishExec cfg env).gitPullCalls = (publishBody cfg env).2.gitPullCalls ∧
    (publishExec cfg env).dvcPushCalls = (publishBody cfg env).2.dvcPushCalls ∧
    (publishExec cfg env).gitPushCalls = (publishBody cfg env).2.gitPushCalls ∧
    (publishExec cfg env).recoveryPullCalls =
      (publishBody cfg env).2.recoveryPullCalls := by
  unfold publishExec
  rcases publishBody cfg env with ⟨term, tr⟩
  rcases term with _ | e
  · simp [applyHandlers]
  · rcases e <;> simp [applyHandlers]

theorem publishBody_mainPath (cfg : PublishCfg) (env : PublishEnv)
    (h : (publishBody cfg env).2.reachedCommit = true ∨
      (publishBody cfg env).2.reachedPush = true) :
    ∃ c d, publishBody cfg env =
      publishFromCommit cfg env
        { initCalls := 1, checkoutCalls := c, dvcAddCalls := d, gitAddCalls := 1 } := by
  have hfalse : ¬ (false = true ∨ false = true) := by simp
  rcases h0 : env.cPrep with _ | _
  swap
  · rw [show (publishBody cfg env).2 = { } from by simp [publishBody, h0]] at h
    exact absurd h hfalse
  rcases hi : env.initWs with _ | e
  swap
  · rw [show (publishBody cfg env).2 = { initCalls := 1 } from
      by simp [publishBody, h0, hi]] at h
    exact absurd h hfalse
  rcases h1 : env.cAfterInit with _ | _
  swap
  · rw [show (publishBody cfg env).2 = { initCalls := 1 } from
      by simp [publishBody, h0, hi, h1]] at h
    exact absurd h hfalse
  rcases hbr : env.currentBranch with e | ob
  · rw [show (publishBody cfg env).2 = { initCalls := 1 } from
      by simp [publishBody, h0, hi, h1, hbr]] at h
    exact absurd h hfalse
  rcases ob with _ | b
  · rw [show (publishBody cfg env).2 = { initCalls := 1 } from
      by simp [publishBody, h0, hi, h1, hbr]] at h
    exact absurd h hfalse
  -- the branch-switch stage
  by_cases hmain : b = "main"
  · -- no checkout; dataset stage
    rcases hds : cfg.hasDataset with _ | _
    · -- staging
      rcases h2 : env.cStage with _ | _
      swap
      · rw [show (publishBody cfg env).2 = { initCalls := 1 } from
          by simp [publishBody, h0, hi, h1, hbr, hmain, hds, h2]] at h
        exact absurd h hfalse
      rcases hga : env.gitAdd with _ | e
      swap
      · rw [show (publishBody cfg env).2 = { initCalls := 1, gitAddCalls := 1 } from
          by simp [publishBody, h0, hi, h1, hbr, hmain, hds, h2, hga]] at h
        exact absurd h hfalse
      rcases h3 : env.cAfterAdd with _ | _
      swap
      · rw [show (publishBody cfg env).2 = { initCalls := 1, gitAddCalls := 1 } from
          by simp [publishBody, h0, hi, h1, hbr, hmain, hds, h2, hga, h3]] at h
        exact absurd h hfalse
      rcases h4 : env.cCommit with _ | _
      swap
      · rw [show (publishBody cfg env).2 = { initCalls := 1, gitAddCalls := 1 } from
          by simp [publishBody, h0, hi, h1, hbr, hmain, hds, h2, hga, h3, h4]] at h
        exact absurd h hfalse
      exact ⟨0, 0, by simp [publishBody, h0, hi, h1, hbr, hmain, hds, h2, hga, h3, h4]⟩
    · rcases htr : env.cTrack with _ | _
      swap
      · rw [show (publishBody cfg env).2 = { initCalls := 1 } from
          by simp [publishBody, h0, hi, h1, hbr, hmain, hds, htr]] at h
        exact absurd h hfalse
      rcases hdv : env.dvcAdd with _ | e
      swap
      · rw [show (publishBody cfg env).2 = { initCalls := 1, dvcAddCalls := 1 } from
          by simp [publishBody, h0, hi, h1, hbr, hmain, hds, htr, hdv]] at h
        exact absurd h hfalse
      rcases h2 : env.cStage with _ | _
      swap
      · rw [show (publishBody cfg env).2 = { initCalls := 1, dvcAddCalls := 1 } from
          by simp [publishBody, h0, hi, h1, hbr, hmain, hds, htr, hdv, h2]] at h
        exact absurd h hfalse
      rcases hga : env.gitAdd with _ | e
      swap
      · rw [show (publishBody cfg env).2 =
            { initCalls := 1, dvcAddCalls := 1, gitAddCalls := 1 } from
          by simp [publishBody, h0, hi, h1, hbr, hmain, hds, htr, hdv, h2, hga]] at h
        exact absurd h hfalse
      rcases h3 : env.cAfterAdd with _ | _
      swap
      · rw [show (publishBody cfg env).2 =
            { initCalls := 1, dvcAddCalls := 1, gitAddCalls := 1 } from
          by simp [publishBody, h0, hi, h1, hbr, hmain, hds, htr, hdv, h2, hga, h3]] at h
        exact absurd h hfalse
      rcases h4 : env.cCommit with _ | _
      swap
      · rw [show (publishBody cfg env).2 =
            { initCalls := 1, dvcAddCalls := 1, gitAddCalls := 1 } from
          by simp [publishBody, h0, hi, h1, hbr, hmain, hds, htr, hdv, h2, hga, h3, h4]] at h
        exact absurd h hfalse
      exact ⟨0, 1,
        by simp [publishBody, h0, hi, h1, hbr, hmain, hds, htr, hdv, h2, hga, h3, h4]⟩
  · rcases hsw : env.cSwitch with _ | _
    swap
    · rw [show (publishBody cfg env).2 = { initCalls := 1 } from
        by simp [publishBody, h0, hi, h1, hbr, hmain, hsw]] at h
      exact absurd h hfalse
    rcases hco : env.checkoutMain with _ | e
    swap
    · rw [show (publishBody cfg env).2 = { initCalls := 1, checkoutCalls := 1 } from
        by simp [publishBody, h0, hi, h1, hbr, hmain, hsw, hco]] at h
      exact absurd h hfalse
    rcases hac : env.cAfterCheckout with _ | _
    swap
    · rw [show (publishBody cfg env).2 = { initCalls := 1, checkoutCalls := 1 } from
        by simp [publishBody, h0, hi, h1, hbr, hmain, hsw, hco, hac]] at h
      exact absurd h hfalse
    rcases hds : cfg.hasDataset with _ | _
    · rcases h2 : env.cStage with _ | _
      swap
      · rw [show (publishBody cfg env).2 = { initCalls := 1, checkoutCalls := 1 } from
          by simp [publishBody, h0, hi, h1, hbr, hmain, hsw, hco, hac, hds, h2]] at h
        exact absurd h hfalse
      rcases hga : env.gitAdd with _ | e
      swap
      · rw [show (publishBody cfg env).2 =
            { initCalls := 1, checkoutCalls := 1, gitAddCalls := 1 } from
          by simp [publishBody, h0, hi, h1, hbr, hmain, hsw, hco, hac, hds, h2, hga]] at h
        exact absurd h hfalse
      rcases h3 : env.cAfterAdd with _ | _
      swap
      · rw [show (publishBody cfg env).2 =
            { initCalls := 1, checkoutCalls := 1, gitAddCalls := 1 } from
          by simp [publishBody, h0, hi, h1, hbr, hmain, hsw, hco, hac, hds, h2, hga,
            h3]] at h
        exact absurd h hfalse
      rcases h4 : env.cCommit with _ | _
      swap
      · rw [show (publishBody cfg env).2 =
            { initCalls := 1, checkoutCalls := 1, gitAddCalls := 1 } from
          by simp [publishBody, h0, hi, h1, hbr, hmain, hsw, hco, hac, hds, h2, hga,
            h3, h4]] at h
        exact absurd h hfalse
      exact ⟨1, 0, by simp [publishBody, h0, hi, h1, hbr, hmain, hsw, hco, hac, hds,
        h2, hga, h3, h4]⟩
    · rcases htr : env.cTrack with _ | _
      swap
      · rw [show (publishBody cfg env).2 = { initCalls := 1, checkoutCalls := 1 } from
          by simp [publishBody, h0, hi, h1, hbr, hmain, hsw, hco, hac, hds, htr]] at h
        exact absurd h hfalse
      rcases hdv : env.dvcAdd with _ | e
      swap
      · rw [show (publishBody cfg env).2 =
            { initCalls := 1, checkoutCalls := 1, dvcAddCalls := 1 } from
          by simp [publishBody, h0, hi, h1, hbr, hmain, hsw, hco, hac, hds, htr,
            hdv]] at h
        exact absurd h hfalse
      rcases h2 : env.cStage with _ | _
      swap
      · rw [show (publishBody cfg env).2 =
            { initCalls := 1, checkoutCalls := 1, dvcAddCalls := 1 } from
          by simp [publishBody, h0, hi, h1, hbr, hmain, hsw, hco, hac, hds, htr, hdv,
            h2]] at h
        exact absurd h hfalse
      rcases hga : env.gitAdd with _ | e
      swap
      · rw [show (publishBody cfg env).2 =
            { initCalls := 1, checkoutCalls := 1, dvcAddCalls := 1, gitAddCalls := 1 } from
          by simp [publishBody, h0, hi, h1, hbr, hmain, hsw, hco, hac, hds, htr, hdv,
            h2, hga]] at h
        exact absurd h hfalse
      rcases h3 : env.cAfterAdd with _ | _
      swap
      · rw [show (publishBody cfg env).2 =
            { initCalls := 1, checkoutCalls := 1, dvcAddCalls := 1, gitAddCalls := 1 } from
          by simp [publishBody, h0, hi, h1, hbr, hmain, hsw, hco, hac, hds, htr, hdv,
            h2, hga, h3]] at h
        exact absurd h hfalse
      rcases h4 : env.cCommit with _ | _
      swap
      · rw [show (publishBody cfg env).2 =
            { initCalls := 1, checkoutCalls := 1, dvcAddCalls := 1, gitAddCalls := 1 } from
          by simp [publishBody, h0, hi, h1, hbr, hmain, hsw, hco, hac, hds, htr, hdv,
            h2, hga, h3, h4]] at h
        exact absurd h hfalse
      exact ⟨1, 1, by simp [publishBody, h0, hi, h1, hbr, hmain, hsw, hco, hac, hds,
        htr, hdv, h2, hga, h3, h4]⟩

/-- C6: a publish run that reaches the commit step and is told `nothing to
commit` finishes successfully with the no-local-change message and performs
no DVC push, no git push and no rebase pull. -/
theorem publish_no_changes (cfg : PublishCfg) (env : PublishEnv) (m : String)
    (hreach : (publishExec cfg env).reachedCommit = true)
    (hcommit : env.commit = some (.gitError m))
    (hm : isNothingToCommit m = true)
    (hnc : env.cNoChanges = false) :
    (publishExec cfg env).finished = [(true, "No local change detected.")] ∧
    (publishExec cfg env).dvcPushCalls = 0 ∧
    (publishExec cfg env).gitPushCalls = 0 ∧
    (publishExec cfg env).gitPullCalls = 0 := by
  have hfields := publishExec_fields cfg env
  obtain ⟨c, d, hb⟩ := publishBody_mainPath cfg env
    (Or.inl (by rw [← hfields.1]; exact hreach))
  have hval : publishBody cfg env =
      (none, { initCalls := 1, checkoutCalls := c, dvcAddCalls := d,
               gitAddCalls := 1, commitCalls := 1, reachedCommit := true,
               finished := [(true, "No local change detected.")] }) := by
    rw [hb]
    simp [publishFromCommit, hcommit, hm, hnc]
  unfold publishExec
  rw [hval]
  simp [applyHandlers]

/-- C6 witness. -/
theorem publish_no_changes_witness :
    (publishExec ⟨false⟩
        ⟨false, none, false, .ok (some "main"), false, none, false, false, none,
         false, none, false, false, some (.gitError "nothing to commit, working tree clean"),
         false, false, none, false, false, none, false, false, none, false, none,
         none, false⟩).finished = [(true, "No local change detected.")] ∧
    (publishExec ⟨false⟩
        ⟨false, none, false, .ok (some "main"), false, none, false, false, none,
         false, none, false, false, some (.gitError "nothing to commit, working tree clean"),
         false, false, none, false, false, none, false, false, none, false, none,
         none, false⟩).dvcPushCalls = 0 ∧
    (publishExec ⟨false⟩
        ⟨false, none, false, .ok (some "main"), false, none, false, false, none,
         false, none, false, false, some (.gitError "nothing to commit, working tree clean"),
         false, false, none, false, false, none, false, false, none, false, none,
         none, false⟩).gitPushCalls = 0 ∧
    (publishExec ⟨false⟩
        ⟨false, none, false, .ok (some "main"), false, none, false, false, none,
         false, none, false, false, some (.gitError "nothing to commit, working tree clean"),
         false, false, none, false, false, none, false, false, none, false, none,
         none, false⟩).gitPullCalls = 0 :=
  publish_no_changes ⟨false⟩
    ⟨false, none, false, .ok (some "main"), false, none, false, false, none,
     false, none, false, false, some (.gitError "nothing to commit, working tree clean"),
     false, false, none, false, false, none, false, false, none, false, none,
     none, false⟩
    "nothing to commit, working tree clean"
    (by simp [publishExec, publishBody, publishFromCommit, applyHandlers,
      isNothingToCommit, pyLower, strContainsSub, listContainsSub])
    rfl (by decide) rfl

theorem publishFromCommit_pushConds (cfg : PublishCfg) (env : PublishEnv)
    (t : PublishTrace) (hti : t.reachedPush = false)
    (h : (publishFromCommit cfg env t).2.reachedPush = true) :
    env.commit = none ∧ env.cRebase = false ∧ env.pullRebase = none ∧
    env.cAfterPull = false ∧ env.cDvcPush = false ∧ env.dvcPush = none ∧
    env.cAfterDvcPush = false ∧ env.cGitPush = false := by
  rcases hcm : env.commit with _ | e
  swap
  · have hv : (publishFromCommit cfg env t).2.reachedPush = t.reachedPush := by
      rcases e with m | m | m
      · simp [publishFromCommit, hcm]
      · simp [publishFromCommit, hcm]
        split_ifs <;> simp
      · simp [publishFromCommit, hcm]
    rw [hv, hti] at h
    exact absurd h (by simp)
  rcases hrb : env.cRebase with _ | _
  swap
  · rw [show (publishFromCommit cfg env t).2.reachedPush = t.reachedPush from
      by simp [publishFromCommit, hcm, hrb], hti] at h
    exact absurd h (by simp)
  rcases hpl : env.pullRebase with _ | e
  swap
  · rw [show (publishFromCommit cfg env t).2.reachedPush = t.reachedPush from
      by simp [publishFromCommit, hcm, hrb, hpl], hti] at h
    exact absurd h (by simp)
  rcases hap : env.cAfterPull with _ | _
  swap
  · rw [show (publishFromCommit cfg env t).2.reachedPush = t.reachedPush from
      by simp [publishFromCommit, hcm, hrb, hpl, hap], hti] at h
    exact absurd h (by simp)
  rcases hdp : env.cDvcPush with _ | _
  swap
  · rw [show (publishFromCommit cfg env t).2.reachedPush = t.reachedPush from
      by simp [publishFromCommit, hcm, hrb, hpl, hap, hdp], hti] at h
    exact absurd h (by simp)
  rcases hdpo : env.dvcPush with _ | e
  swap
  · rw [show (publishFromCommit cfg env t).2.reachedPush = t.reachedPush from
      by simp [publishFromCommit, hcm, hrb, hpl, hap, hdp, hdpo], hti] at h
    exact absurd h (by simp)
  rcases hadp : env.cAfterDvcPush with _ | _
  swap
  · rw [show (publishFromCommit cfg env t).2.reachedPush = t.reachedPush from
      by simp [publishFromCommit, hcm, hrb, hpl, hap, hdp, hdpo, hadp], hti] at h
    exact absurd h (by simp)
  rcases hgp : env.cGitPush with _ | _
  swap
  · rw [show (publishFromCommit cfg env t).2.reachedPush = t.reachedPush from
      by simp [publishFromCommit, hcm, hrb, hpl, hap, hdp, hdpo, hadp, hgp], hti] at h
    exact absurd h (by simp)
  exact ⟨rfl, rfl, rfl, rfl, rfl, rfl, rfl, rfl⟩

/-- C5: a publish run whose git push is rejected with a non-fast-forward
error performs exactly one recovery cycle — one rebase pull followed by one
retried push — and if the retried push also fails, the error surfaces as a
workflow failure (finished false, one error emission) with no further push
attempt. -/
theorem publish_push_conflict_one_recovery (cfg : PublishCfg) (env : PublishEnv)
    (m : String)
    (hreach : (publishExec cfg env).reachedPush = true)
    (hp1 : env.gitPush1 = some (.gitError m))
    (hnff : isNonFastForwardError m = true)
    (hcr : env.cRecover = false) :
    (publishExec cfg env).recoveryPullCalls = 1 ∧
    (env.recoveryPull = none → (publishExec cfg env).gitPushCalls = 2) ∧
    (∀ m2, env.recoveryPull = none →
        (env.gitPush2 = some (.gitError m2) ∨ env.gitPush2 = some (.runtimeError m2)) →
        (publishExec cfg env).gitPushCalls = 2 ∧
        (publishExec cfg env).finished = [(false, m2)] ∧
        (publishExec cfg env).errors = [m2]) := by
  have hfields := publishExec_fields cfg env
  obtain ⟨c, d, hb⟩ := publishBody_mainPath cfg env
    (Or.inr (by rw [← hfields.2.1]; exact hreach))
  have hreach2 : (publishFromCommit cfg env
      { initCalls := 1, checkoutCalls := c, dvcAddCalls := d,
        gitAddCalls := 1 }).2.reachedPush = true := by
    rw [← hb, ← hfields.2.1]
    exact hreach
  obtain ⟨hcm, hrb, hpl, hap, hdp, hdpo, hadp, hgp⟩ :=
    publishFromCommit_pushConds cfg env _ rfl hreach2
  refine ⟨?_, ?_, ?_⟩
  · rw [hfields.2.2.2.2.2, hb]
    rcases hrp : env.recoveryPull with _ | e
    · rcases hg2 : env.gitPush2 with _ | e2
      · rcases hcc : env.cComplete with _ | _ <;>
          simp [publishFromCommit, publishPushStage, hcm, hrb, hpl, hap, hdp,
            hdpo, hadp, hgp, hp1, hnff, hcr, hrp, hg2, hcc]
      · simp [publishFromCommit, publishPushStage, hcm, hrb, hpl, hap, hdp,
          hdpo, hadp, hgp, hp1, hnff, hcr, hrp, hg2]
    · simp [publishFromCommit, publishPushStage, hcm, hrb, hpl, hap, hdp,
        hdpo, hadp, hgp, hp1, hnff, hcr, hrp]
  · intro hrp
    rw [hfields.2.2.2.2.1, hb]
    rcases hg2 : env.gitPush2 with _ | e2
    · rcases hcc : env.cComplete with _ | _ <;>
        simp [publishFromCommit, publishPushStage, hcm, hrb, hpl, hap, hdp,
          hdpo, hadp, hgp, hp1, hnff, hcr, hrp, hg2, hcc]
    · simp [publishFromCommit, publishPushStage, hcm, hrb, hpl, hap, hdp,
        hdpo, hadp, hgp, hp1, hnff, hcr, hrp, hg2]
  · intro m2 hrp hg2
    rcases hg2 with hg2 | hg2
    · have hval : publishBody cfg env =
          (some (.gitError m2),
           { initCalls := 1, checkoutCalls := c, dvcAddCalls := d, gitAddCalls := 1,
             commitCalls := 1, gitPullCalls := 1, dvcPushCalls := 1,
             gitPushCalls := 2, recoveryPullCalls := 1, reachedCommit := true,
             reachedPush := true }) := by
        rw [hb]
        simp [publishFromCommit, publishPushStage, hcm, hrb, hpl, hap, hdp,
          hdpo, hadp, hgp, hp1, hnff, hcr, hrp, hg2]
      refine ⟨?_, ?_, ?_⟩ <;> simp [publishExec, hval, applyHandlers]
    · have hval : publishBody cfg env =
          (some (.runtimeError m2),
           { initCalls := 1, checkoutCalls := c, dvcAddCalls := d, gitAddCalls := 1,
             commitCalls := 1, gitPullCalls := 1, dvcPushCalls := 1,
             gitPushCalls := 2, recoveryPullCalls := 1, reachedCommit := true,
             reachedPush := true }) := by
        rw [hb]
        simp [publishFromCommit, publishPushStage, hcm, hrb, hpl, hap, hdp,
          hdpo, hadp, hgp, hp1, hnff, hcr, hrp, hg2]
      refine ⟨?_, ?_, ?_⟩ <;> simp [publishExec, hval, applyHandlers]

/-- C5 witness: the concrete conflicted publish run performs one recovery
pull, two pushes, and surfaces the second push failure. -/
theorem publish_push_conflict_one_recovery_witness :
    (publishExec ⟨false⟩ publishConflictEnv).recoveryPullCalls = 1 ∧
    (publishExec ⟨false⟩ publishConflictEnv).gitPushCalls = 2 ∧
    (publishExec ⟨false⟩ publishConflictEnv).finished =
      [(false, "remote rejected: failed to push some refs")] ∧
    (publishExec ⟨false⟩ publishConflictEnv).errors =
      ["remote rejected: failed to push some refs"] := by
  have h := publish_push_conflict_one_recovery ⟨false⟩ publishConflictEnv
    "updates were rejected: non-fast-forward" (by decide) rfl (by decide) rfl
  have h3 := h.2.2 "remote rejected: failed to push some refs" rfl (Or.inl rfl)
  exact ⟨h.1, h3.1, h3.2.1, h3.2.2⟩

/-- C9: a cancellation flag set before `execute()` starts makes every
workflow — fetch, publish, import, restore, return-to-latest and load
history — finish with the distinct cancellation outcome: success flag false
and the cancellation message, no error emission, and not a single substrate
(or lock) call — the final trace is the empty trace plus the one finished
emission. -/
theorem cancel_before_start (fcfg : FetchCfg) (fenv : FetchEnv)
    (pcfg : PublishCfg) (penv : PublishEnv) (icfg : ImportCfg) (ienv : ImportEnv)
    (commitRef : String) (renv : RestoreEnv) (lenv : ReturnEnv)
    (hcfg : HistoryCfg) (henv : HistoryEnv)
    (hf : fenv.cPrep = true) (hp : penv.cPrep = true) (hi : ienv.cPrep = true)
    (hr : renv.cPrep = true) (hl : lenv.cPrep = true) (hh : henv.cPrep = true) :
    fetchExec fcfg fenv = { finished := [(false, cancelMsg)] } ∧
    publishExec pcfg penv = { finished := [(false, cancelMsg)] } ∧
    importExec icfg ienv = { finished := [(false, cancelMsg)] } ∧
    restoreExec commitRef renv = { finished := [(false, cancelMsg)] } ∧
    returnExec lenv = { finished := [(false, cancelMsg)] } ∧
    historyExec hcfg henv = { finished := [(false, cancelMsg)] } := by
  refine ⟨?_, ?_, ?_, ?_, ?_, ?_⟩
  · simp [fetchExec, fetchBody, hf, applyHandlers]
  · simp [publishExec, publishBody, hp, applyHandlers]
  · simp [importExec, importBody, hi, applyHandlers]
  · simp [restoreExec, restoreBody, hr, applyHandlers]
  · simp [returnExec, returnBody, hl, applyHandlers]
  · simp [historyExec, historyBody, hh, applyHandlers]

/-- C9 witness. -/
theorem cancel_before_start_witness :
    fetchExec ⟨false⟩ fetchCancelEnv = { finished := [(false, cancelMsg)] } ∧
    publishExec ⟨false⟩ publishCancelEnv = { finished := [(false, cancelMsg)] } ∧
    importExec ⟨false⟩ importCancelEnv = { finished := [(false, cancelMsg)] } ∧
    restoreExec "abc123" restoreCancelEnv = { finished := [(false, cancelMsg)] } ∧
    returnExec returnCancelEnv = { finished := [(false, cancelMsg)] } ∧
    historyExec ⟨"cam"⟩ historyCancelEnv = { finished := [(false, cancelMsg)] } :=
  cancel_before_start ⟨false⟩ fetchCancelEnv ⟨false⟩ publishCancelEnv
    ⟨false⟩ importCancelEnv "abc123" restoreCancelEnv returnCancelEnv
    ⟨"cam"⟩ historyCancelEnv rfl rfl rfl rfl rfl rfl

theorem importFinish_lock (cfg : ImportCfg) (env : ImportEnv)
    (fc rc : Nat) (hc : Bool) (t : ImportTrace) :
    (importFinish cfg env fc rc hc t).2.lockAcquired = t.lockAcquired := by
  unfold importFinish
  split_ifs <;> simp

theorem importFinish_release (cfg : ImportCfg) (env : ImportEnv)
    (fc rc : Nat) (hc : Bool) (t : ImportTrace) :
    (importFinish cfg env fc rc hc t).2.releaseCalls = t.releaseCalls := by
  unfold importFinish
  split_ifs <;> simp

theorem importPushes_lock (cfg : ImportCfg) (env : ImportEnv)
    (fc rc : Nat) (t : ImportTrace) :
    (importPushes cfg env fc rc t).2.lockAcquired = t.lockAcquired := by
  simp only [importPushes]
  repeat' split
  all_goals simp [importFinish_lock]

theorem importPushes_release (cfg : ImportCfg) (env : ImportEnv)
    (fc rc : Nat) (t : ImportTrace) :
    (importPushes cfg env fc rc t).2.releaseCalls = t.releaseCalls := by
  simp only [importPushes]
  repeat' split
  all_goals simp [importFinish_release]

theorem importCommitStage_lock (cfg : ImportCfg) (env : ImportEnv)
    (fc rc : Nat) (t : ImportTrace) :
    (importCommitStage cfg env fc rc t).2.lockAcquired = t.lockAcquired := by
  simp only [importCommitStage]
  repeat' split
  all_goals simp [importFinish_lock, importPushes_lock]

theorem importCommitStage_release (cfg : ImportCfg) (env : ImportEnv)
    (fc rc : Nat) (t : ImportTrace) :
    (importCommitStage cfg env fc rc t).2.releaseCalls = t.releaseCalls := by
  simp only [importCommitStage]
  repeat' split
  all_goals simp [importFinish_release, importPushes_release]

theorem importFromCopy_lock (cfg : ImportCfg) (env : ImportEnv)
    (fc rc : Nat) (t : ImportTrace) :
    (importFromCopy cfg env fc rc t).2.lockAcquired = t.lockAcquired := by
  simp only [importFromCopy]
  repeat' split
  all_goals simp [importCommitStage_lock]

theorem importFromCopy_release (cfg : ImportCfg) (env : ImportEnv)
    (fc rc : Nat) (t : ImportTrace) :
    (importFromCopy cfg env fc rc t).2.releaseCalls = t.releaseCalls := by
  simp only [importFromCopy]
  repeat' split
  all_goals simp [importCommitStage_release]

theorem importAfterLock_lock (cfg : ImportCfg) (env : ImportEnv)
    (fc : Nat) (t : ImportTrace) :
    (importAfterLock cfg env fc t).2.lockAcquired = t.lockAcquired := by
  simp only [importAfterLock]
  repeat' split
  all_goals simp [importFromCopy_lock]

theorem importAfterLock_release (cfg : ImportCfg) (env : ImportEnv)
    (fc : Nat) (t : ImportTrace) :
    (importAfterLock cfg env fc t).2.releaseCalls = t.releaseCalls := by
  simp only [importAfterLock]
  repeat' split
  all_goals simp [importFromCopy_release]

theorem importBody_lock (cfg : ImportCfg) (env : ImportEnv) :
    (importBody cfg env).2.lockAcquired = importAcquireSucceeded env ∧
    (importBody cfg env).2.releaseCalls = 0 := by
  rcases h0 : env.cPrep with _ | _
  swap
  · simp [importBody, importAcquireSucceeded, h0]
  rcases hi : env.initWs with e | b
  · simp [importBody, importAcquireSucceeded, h0, hi]
  rcases b with _ | _
  · simp [importBody, importAcquireSucceeded, h0, hi]
  rcases h1 : env.cValidate with _ | _
  swap
  · simp [importBody, importAcquireSucceeded, h0, hi, h1]
  rcases hv : env.validate with e | v
  · simp [importBody, importAcquireSucceeded, h0, hi, h1, hv]
  obtain ⟨valid, vmsg, fc⟩ := v
  rcases valid with _ | _
  · simp [importBody, importAcquireSucceeded, h0, hi, h1, hv]
  rcases h2 : env.cLock with _ | _
  swap
  · simp [importBody, importAcquireSucceeded, h0, hi, h1, hv, h2]
  rcases hlc : env.lockCheck with e | eo
  · simp [importBody, importAcquireSucceeded, h0, hi, h1, hv, h2, hlc]
  have hacq : (importAcquireStage cfg env fc
        { initCalls := 1, validateCalls := 1, checkCalls := 1 }).2.lockAcquired =
          (match env.acquireRes with | .ok b => b | .error _ => false) ∧
      (importAcquireStage cfg env fc
        { initCalls := 1, validateCalls := 1, checkCalls := 1 }).2.releaseCalls = 0 := by
    rcases ha : env.acquireRes with e | ab
    · simp [importAcquireStage, ha]
    · rcases ab with _ | _
      · simp [importAcquireStage, ha]
      · simp [importAcquireStage, ha, importAfterLock_lock, importAfterLock_release]
  rcases eo with _ | existing
  · have hbody : importBody cfg env =
        importAcquireStage cfg env fc
          { initCalls := 1, validateCalls := 1, checkCalls := 1 } := by
      simp [importBody, h0, hi, h1, hv, h2, hlc]
    rw [hbody]
    rw [hacq.1, hacq.2]
    simp only [importAcquireSucceeded, h0, hi, h1, hv, h2, hlc]
    simp only [Bool.not_false, Bool.true_and, Bool.and_self]
    rcases henv : env.acquireRes with e | b <;> simp [henv]
  · rcases hst : isStale env.clk existing with _ | _
    · simp [importBody, importAcquireSucceeded, h0, hi, h1, hv, h2, hlc, hst]
    · have hbody : importBody cfg env =
          importAcquireStage cfg env fc
            { initCalls := 1, validateCalls := 1, checkCalls := 1 } := by
        simp [importBody, h0, hi, h1, hv, h2, hlc, hst]
      rw [hbody]
      rw [hacq.1, hacq.2]
      simp only [importAcquireSucceeded, h0, hi, h1, hv, h2, hlc, hst]
      simp only [Bool.not_false, Bool.true_and, Bool.and_self]
      rcases henv : env.acquireRes with e | b <;> simp [henv]

/-- C3: over every environment — hence every exit path: success, validation
failure, any exception after acquisition, and cancellation — the import
workflow calls `release` exactly once when the lock acquisition succeeded
and never otherwise (the `finally` clause). -/
theorem import_lock_always_released (cfg : ImportCfg) (env : ImportEnv) :
    (importExec cfg env).releaseCalls =
      if importAcquireSucceeded env = true then 1 else 0 := by
  have hl := importBody_lock cfg env
  unfold importExec
  rcases hb : importBody cfg env with ⟨term, tr⟩
  rw [hb] at hl
  simp only at hl
  rcases term with _ | e
  · rcases hs : importAcquireSucceeded env with _ | _ <;>
      simp [applyHandlers, hl.1, hl.2, hs]
  · rcases e with m | m | m <;>
      rcases hs : importAcquireSucceeded env with _ | _ <;>
        simp [applyHandlers, hl.1, hl.2, hs]

end DataGest
